import Mathlib

/-!
# rastertoql570: protocol codec and print-job driver

A shallow embedding of `ql570.h`, `ql570.c` and `rastertoql570.c`.

Conventions of the embedding:

* a byte (`uint8_t`) is a `Nat`; conversions to a narrower C type are written
  out as `% 256` / `% 4294967296` at the place where C performs them;
* the device stream `FILE *device` is the list of bytes written so far, and
  every writing function returns the extended list (`fflush` has no effect on
  the contents and is omitted);
* `stderr` is the list of lines printed so far;
* the two external collaborators (the CUPS back-channel and the CUPS raster
  stream) are scripts: lists holding the outcome of each future read.
-/

namespace QL570

/-! ## ql570.h -/

/-- The escape byte `QL_ESC`. -/
abbrev QL_ESC : Nat := 0x1b

/-- Extended option `OPT_CUT_AT_END`. -/
abbrev OPT_CUT_AT_END : Nat := 0x08
/-- Extended option `OPT_HIGH_RESOLUTION`. -/
abbrev OPT_HIGH_RESOLUTION : Nat := 0x40

/-- Bit `NO_MEDIA` of `error_info_1`. -/
abbrev NO_MEDIA : Nat := 0x01
/-- Bit `END_OF_MEDIA` of `error_info_1`. -/
abbrev END_OF_MEDIA : Nat := 0x02
/-- Bit `TAPE_CUTTER_JAM` of `error_info_1`. -/
abbrev TAPE_CUTTER_JAM : Nat := 0x04
/-- Bit `MAIN_UNIT_IN_USE` of `error_info_1`. -/
abbrev MAIN_UNIT_IN_USE : Nat := 0x10
/-- Bit `FAN_MALFUNCTION` of `error_info_1`. -/
abbrev FAN_MALFUNCTION : Nat := 0x80

/-- Bit `WRONG_MEDIA` of `error_info_2`. -/
abbrev WRONG_MEDIA : Nat := 0x01
/-- Bit `TRANSMISSION_ERROR` of `error_info_2`. -/
abbrev TRANSMISSION_ERROR : Nat := 0x04
/-- Bit `COVER_OPENED` of `error_info_2`. -/
abbrev COVER_OPENED : Nat := 0x10
/-- Bit `CANNOT_FEED` of `error_info_2`. -/
abbrev CANNOT_FEED : Nat := 0x40
/-- Bit `SYSTEM_ERROR` of `error_info_2`. -/
abbrev SYSTEM_ERROR : Nat := 0x80

/-- Media type `MT_CONTINUOUS`. -/
abbrev MT_CONTINUOUS : Nat := 0x0A
/-- Media type `MT_DIE_CUT`. -/
abbrev MT_DIE_CUT : Nat := 0x0B

/-- Status type `ST_REPLY`. -/
abbrev ST_REPLY : Nat := 0x00
/-- Status type `ST_COMPLETED`. -/
abbrev ST_COMPLETED : Nat := 0x01
/-- Status type `ST_ERROR`. -/
abbrev ST_ERROR : Nat := 0x02
/-- Status type `ST_NOTIFICATION`. -/
abbrev ST_NOTIFICATION : Nat := 0x05
/-- Status type `ST_PHASE_CHANGE`. -/
abbrev ST_PHASE_CHANGE : Nat := 0x06

/-- Notification type `NT_NA`. -/
abbrev NT_NA : Nat := 0x00
/-- Notification type `NT_COOLING_STARTED`. -/
abbrev NT_COOLING_STARTED : Nat := 0x03
/-- Notification type `NT_COOLING_FINISHED`. -/
abbrev NT_COOLING_FINISHED : Nat := 0x04

/-- Phase type `PT_WAITING`. -/
abbrev PT_WAITING : Nat := 0x00
/-- Phase type `PT_PRINTING`. -/
abbrev PT_PRINTING : Nat := 0x01

/-- Validity flag `PIV_MEDIA_TYPE`. -/
abbrev PIV_MEDIA_TYPE : Nat := 0x02
/-- Validity flag `PIV_MEDIA_WIDTH`. -/
abbrev PIV_MEDIA_WIDTH : Nat := 0x04
/-- Validity flag `PIV_MEDIA_LENGTH`. -/
abbrev PIV_MEDIA_LENGTH : Nat := 0x08
/-- Validity flag `PIV_QUALITY`. -/
abbrev PIV_QUALITY : Nat := 0x40
/-- Validity flag `PIV_RECOVER`. -/
abbrev PIV_RECOVER : Nat := 0x80

/-- The record `struct ql_print_info`: ten `uint8_t` members in declaration
order (`raster_number[4]` is spelled out member by member). -/
structure ql_print_info where
  valid_flag : Nat
  media_type : Nat
  media_width : Nat
  media_length : Nat
  raster_number_0 : Nat
  raster_number_1 : Nat
  raster_number_2 : Nat
  raster_number_3 : Nat
  successive_page : Nat
  _fixed : Nat
  deriving DecidableEq, Repr

/-- The object representation of a `ql_print_info`: its members in declaration
order. All members are `uint8_t`, so there is no padding. -/
def ql_print_info.toBytes (p : ql_print_info) : List Nat :=
  [p.valid_flag, p.media_type, p.media_width, p.media_length,
   p.raster_number_0, p.raster_number_1, p.raster_number_2, p.raster_number_3,
   p.successive_page, p._fixed]

/-- The value of `sizeof(ql_print_info)`. -/
def sizeof_ql_print_info : Nat := 10

/-- The record `struct ql_status`: thirty-two `uint8_t` members in declaration
order (`_reserved25[8]` is spelled out member by member). -/
structure ql_status where
  print_head_mark : Nat
  size : Nat
  _reserved3 : Nat
  _reserved4 : Nat
  printer_id : Nat
  _reserved6 : Nat
  _reserved7 : Nat
  _reserved8 : Nat
  error_info_1 : Nat
  error_info_2 : Nat
  media_width : Nat
  media_type : Nat
  _reserved13 : Nat
  _reserved14 : Nat
  _reserved15 : Nat
  _reserved16 : Nat
  _reserved17 : Nat
  media_length : Nat
  status_type : Nat
  phase_type : Nat
  phase_num_h : Nat
  phase_num_l : Nat
  notification_type : Nat
  _reserved24 : Nat
  _reserved25_0 : Nat
  _reserved25_1 : Nat
  _reserved25_2 : Nat
  _reserved25_3 : Nat
  _reserved25_4 : Nat
  _reserved25_5 : Nat
  _reserved25_6 : Nat
  _reserved25_7 : Nat
  deriving DecidableEq, Repr

/-- The value of `sizeof(ql_status)`. -/
def sizeof_ql_status : Nat := 32

/-- The object representation of a `ql_status`: its members in declaration
order. -/
def ql_status.toBytes (s : ql_status) : List Nat :=
  [s.print_head_mark, s.size, s._reserved3, s._reserved4,
   s.printer_id, s._reserved6, s._reserved7, s._reserved8,
   s.error_info_1, s.error_info_2, s.media_width, s.media_type,
   s._reserved13, s._reserved14, s._reserved15, s._reserved16,
   s._reserved17, s.media_length, s.status_type, s.phase_type,
   s.phase_num_h, s.phase_num_l, s.notification_type, s._reserved24,
   s._reserved25_0, s._reserved25_1, s._reserved25_2, s._reserved25_3,
   s._reserved25_4, s._reserved25_5, s._reserved25_6, s._reserved25_7]

/-- The `ql_status` whose object representation is the given bytes (the view
of a byte buffer through a `ql_status*`). -/
def ql_status.ofBytes (b : List Nat) : ql_status :=
  { print_head_mark := b.getD 0 0, size := b.getD 1 0,
    _reserved3 := b.getD 2 0, _reserved4 := b.getD 3 0,
    printer_id := b.getD 4 0, _reserved6 := b.getD 5 0,
    _reserved7 := b.getD 6 0, _reserved8 := b.getD 7 0,
    error_info_1 := b.getD 8 0, error_info_2 := b.getD 9 0,
    media_width := b.getD 10 0, media_type := b.getD 11 0,
    _reserved13 := b.getD 12 0, _reserved14 := b.getD 13 0,
    _reserved15 := b.getD 14 0, _reserved16 := b.getD 15 0,
    _reserved17 := b.getD 16 0, media_length := b.getD 17 0,
    status_type := b.getD 18 0, phase_type := b.getD 19 0,
    phase_num_h := b.getD 20 0, phase_num_l := b.getD 21 0,
    notification_type := b.getD 22 0, _reserved24 := b.getD 23 0,
    _reserved25_0 := b.getD 24 0, _reserved25_1 := b.getD 25 0,
    _reserved25_2 := b.getD 26 0, _reserved25_3 := b.getD 27 0,
    _reserved25_4 := b.getD 28 0, _reserved25_5 := b.getD 29 0,
    _reserved25_6 := b.getD 30 0, _reserved25_7 := b.getD 31 0 }

/-- The initialiser `ql_status status = { 0 }`. -/
def ql_status.zero : ql_status := ql_status.ofBytes []

/-- Storing `bytes` at the start of the object `s` (what a read into
`(uint8_t*)status` does): the leading bytes are replaced, the others kept. -/
def ql_status.store (s : ql_status) (bytes : List Nat) : ql_status :=
  ql_status.ofBytes (bytes ++ s.toBytes.drop bytes.length)

/-! ## stdio -/

/-- The call `fwrite(ptr, size, nmemb, device)` on a buffer holding at least
`size * nmemb` bytes: these bytes are appended to the stream. -/
def fwrite (ptr : List Nat) (size nmemb : Nat) (device : List Nat) : List Nat :=
  device ++ ptr.take (size * nmemb)

/-- The call `fread(ptr, size, nmemb, stream)`: up to `size * nmemb` bytes are
taken from the stream; the value returned is the number of complete ITEMS
read, not the number of bytes. Returns (return value, bytes stored, rest of
the stream). -/
def fread (size nmemb : Nat) (stream : List Nat) : Nat × List Nat × List Nat :=
  let got := stream.take (size * nmemb)
  (got.length / size, got, stream.drop (size * nmemb))

/-- The call `memset(buf, 0x00, n)` on a fresh buffer of `n` bytes. -/
def zero_buffer (n : Nat) : List Nat := List.replicate n 0

/-- The call `memcpy(dst, src, n)` where `src` holds at least `n` bytes: the
first `n` bytes of `dst` are replaced. -/
def memcpy (dst src : List Nat) (n : Nat) : List Nat :=
  src.take n ++ dst.drop n

/-! ## ql570.c -/

/-- Request status from printer. -/
def ql_status_request (device : List Nat) : List Nat :=
  let request := [QL_ESC, 0x69, 0x53]
  fwrite request 3 1 device

/-- Read a status response from the printer. Returns the result, the updated
status object and the rest of the input stream. -/
def ql_status_read (status : ql_status) (device : List Nat) :
    Bool × ql_status × List Nat :=
  let r := fread sizeof_ql_status 1 device
  let len := r.1
  let status := status.store r.2.1
  if len ≠ sizeof_ql_status then (false, status, r.2.2)
  else (true, status, r.2.2)

/-- Initialise printer. -/
def ql_init (flush : Bool) (device : List Nat) : List Nat :=
  let device :=
    if flush then
      let init_buffer := zero_buffer 200
      fwrite init_buffer 1 200 device
    else device
  let request := [QL_ESC, 0x40]
  fwrite request 2 1 device

/-- Write one line of raster data to the printer (`length` is a `uint8_t`). -/
def ql_raster (length : Nat) (data : List Nat) (device : List Nat) : List Nat :=
  let request := [0x67, 0x00, length]
  let device := fwrite request 3 1 device
  fwrite data length 1 device

/-- Signal end of raster data (`length` is a `uint8_t`). -/
def ql_raster_end (length : Nat) (device : List Nat) : List Nat :=
  let request := [0x67, 0xFF, length]
  let data := zero_buffer length
  let device := fwrite request 3 1 device
  fwrite data length 1 device

/-- Start a new page. -/
def ql_page_start (print_info : ql_print_info) (device : List Nat) : List Nat :=
  let request := [QL_ESC, 0x69, 0x7A]
  let device := fwrite request 3 1 device
  fwrite print_info.toBytes sizeof_ql_print_info 1 device

/-- End the current page. -/
def ql_page_end (last_page : Bool) (device : List Nat) : List Nat :=
  let request := if last_page then 0x1A else 0x0C
  fwrite [request] 1 1 device

/-- Set extended options. -/
def ql_set_extended_options (cut_at_end high_resolution : Bool)
    (device : List Nat) : List Nat :=
  let options := 0x00
  let options := if cut_at_end then options ||| OPT_CUT_AT_END else options
  let options := if high_resolution then options ||| OPT_HIGH_RESOLUTION else options
  let request := [QL_ESC, 0x69, 0x4B, options]
  fwrite request 4 1 device

/-- Enable automatic label cutting. -/
def ql_autocut_enable (device : List Nat) : List Nat :=
  let request := [QL_ESC, 0x69, 0x4D, 0b01000000]
  fwrite request 4 1 device

/-- Cut after each `interval` labels (`interval` is a `uint8_t`). -/
def ql_autocut_interval (interval : Nat) (device : List Nat) : List Nat :=
  let request := [QL_ESC, 0x69, 0x41, interval]
  fwrite request 4 1 device

/-- Set margins on continuous tape (`margins` is a `uint16_t`). -/
def ql_set_margins (margins : Nat) (device : List Nat) : List Nat :=
  let request := [QL_ESC, 0x69, 0x64, margins &&& 0x00FF, (margins &&& 0xFF00) >>> 8]
  fwrite request 5 1 device

/-- Sets the default margins. -/
def ql_set_default_margins (media_type : Nat) (device : List Nat) : List Nat :=
  if media_type = MT_CONTINUOUS then ql_set_margins 35 device
  else ql_set_margins 0 device

/-! ## The CUPS collaborators -/

/-- The members of `cups_page_header2_t` that the driver reads (all of type
`unsigned`). -/
structure cups_page_header2_t where
  HWResolution : Nat × Nat
  cupsHeight : Nat
  cupsBytesPerLine : Nat
  deriving DecidableEq, Repr

/-- The outcome of one `cupsBackChannelRead` call: an error or timeout (the
call returns -1), or some bytes delivered by the printer. -/
inductive BackChannelRead where
  | error : BackChannelRead
  | data (bytes : List Nat) : BackChannelRead
  deriving DecidableEq, Repr

/-- The outcome of one `cupsRasterReadPixels` call: `none` when the call
returns 0, `some row` when it returns a non-zero count and has stored `row`
in the caller's buffer. -/
abbrev RasterRead := Option (List Nat)

/-- Everything the filter acts on: the bytes written to `fout`, the lines
written to `stderr`, and the scripts of the two CUPS streams. -/
structure World where
  fout : List Nat
  stderr : List String
  backchannel : List BackChannelRead
  raster : List RasterRead
  deriving DecidableEq, Repr

/-- The call `cupsBackChannelRead((uint8_t*)status, bytes, timeout)`: returns
the value of the call, the updated status object and the rest of the script.
An exhausted script behaves as a timeout. -/
def cupsBackChannelRead (status : ql_status) (bytes : Nat)
    (bc : List BackChannelRead) : Int × ql_status × List BackChannelRead :=
  match bc with
  | [] => (-1, status, [])
  | BackChannelRead.error :: rest => (-1, status, rest)
  | BackChannelRead.data d :: rest =>
    let got := d.take bytes
    ((got.length : Int), status.store got, rest)

/-- The call `cupsRasterReadPixels(raster, buffer, len)`: returns whether the
value of the call is non-zero, the buffer afterwards and the rest of the
script. An exhausted script returns 0. -/
def cupsRasterReadPixels (raster : List RasterRead) (buffer : List Nat) :
    Bool × List Nat × List RasterRead :=
  match raster with
  | [] => (false, buffer, [])
  | none :: rest => (false, buffer, rest)
  | some row :: rest => (true, row, rest)

/-! ## C integer conversions used by `handle_page` -/

/-- The number of values of `unsigned int` / `uint32_t`. -/
abbrev UINT_RANGE : Nat := 4294967296

/-- Subtraction in `unsigned int`. -/
def unsigned_sub (a b : Nat) : Nat :=
  (a % UINT_RANGE + UINT_RANGE - b % UINT_RANGE) % UINT_RANGE

/-- Conversion of an `unsigned int` value to `int` (two's complement). -/
def to_int (x : Nat) : Int :=
  if x % UINT_RANGE < 2147483648 then ((x % UINT_RANGE : Nat) : Int)
  else ((x % UINT_RANGE : Nat) : Int) - 4294967296

/-- Conversion of an `int` value to `uint32_t`. -/
def to_uint32 (x : Int) : Nat := (x % 4294967296).toNat

/-! ## rastertoql570.c -/

/-- Read status information from backchannel. -/
def backchannel_read_status (status : ql_status) (bc : List BackChannelRead) :
    Bool × ql_status × List BackChannelRead :=
  let r := cupsBackChannelRead status sizeof_ql_status bc
  let ret := r.1
  if ret ≠ (sizeof_ql_status : Int) then (false, r.2.1, r.2.2)
  else (true, r.2.1, r.2.2)

/-- Request status and read response from backchannel. Returns the result,
the status object, the device stream and the rest of the back-channel. -/
def request_status (status : ql_status) (device : List Nat)
    (bc : List BackChannelRead) :
    Bool × ql_status × List Nat × List BackChannelRead :=
  let device := ql_status_request device
  let r := backchannel_read_status status bc
  (r.1, r.2.1, device, r.2.2)

/-- Turns status information into user visible information. Returns the
value of the function and the lines it prints on `stderr`. -/
def handle_status (status : ql_status) : Bool × List String :=
  if status.status_type = ST_COMPLETED then
    (false, ["INFO: Page completed.\n"])
  else if status.status_type = ST_ERROR then
    let out : List String := []
    let out := if status.error_info_1 &&& NO_MEDIA ≠ 0
      then out ++ ["ERROR: No media.\n"] else out
    let out := if status.error_info_1 &&& END_OF_MEDIA ≠ 0
      then out ++ ["ERROR: End of media.\n"] else out
    let out := if status.error_info_1 &&& TAPE_CUTTER_JAM ≠ 0
      then out ++ ["ERROR: Tape cutter jam.\n"] else out
    let out := if status.error_info_1 &&& MAIN_UNIT_IN_USE ≠ 0
      then out ++ ["ERROR: Main unit in use.\n"] else out
    let out := if status.error_info_1 &&& FAN_MALFUNCTION ≠ 0
      then out ++ ["ERROR: Fan malfunction.\n"] else out
    let out := if status.error_info_2 &&& WRONG_MEDIA ≠ 0
      then out ++ ["ERROR: Wrong media.\n"] else out
    let out := if status.error_info_2 &&& TRANSMISSION_ERROR ≠ 0
      then out ++ ["ERROR: Transmission error.\n"] else out
    let out := if status.error_info_2 &&& COVER_OPENED ≠ 0
      then out ++ ["ERROR: Cover opened.\n"] else out
    let out := if status.error_info_2 &&& CANNOT_FEED ≠ 0
      then out ++ ["ERROR: Cannot feed.\n"] else out
    (true, out)
  else if status.status_type = ST_NOTIFICATION then
    if status.notification_type = NT_COOLING_STARTED then
      (false, ["INFO: Cooling started.\n"])
    else if status.notification_type = NT_COOLING_FINISHED then
      (false, ["INFO: Cooling finished.\n"])
    else (false, [])
  else if status.status_type = ST_PHASE_CHANGE then
    if status.phase_type = PT_WAITING then
      (true, ["INFO: Ready.\n"])
    else if status.phase_type = PT_PRINTING then
      (false, ["INFO: Printing...\n"])
    else (false, [])
  else (false, [])

/-- One round of the loop of `wait_for_page_end`. Returns whether the function
returns in this round, the status object and the world afterwards. -/
def wait_for_page_end_round (status : ql_status) (w : World) :
    Bool × ql_status × World :=
  let r := backchannel_read_status status w.backchannel
  let status := r.2.1
  let w := { w with backchannel := r.2.2 }
  if !r.1 then
    (false, status,
      { w with stderr := w.stderr ++ ["ERROR: Backchannel short read, retrying.\n"] })
  else if status.print_head_mark ≠ 0x80 then
    (false, status,
      { w with stderr := w.stderr ++ ["ERROR: Print status returned is invalid, retrying.\n"] })
  else
    let h := handle_status status
    (h.1, status, { w with stderr := w.stderr ++ h.2 })

/-- The loop of `wait_for_page_end`, with the number of rounds left. -/
def wait_for_page_end_loop : Nat → ql_status → World → World
  | 0, _, w => w
  | n + 1, status, w =>
    let r := wait_for_page_end_round status w
    if r.1 then r.2.2 else wait_for_page_end_loop n r.2.1 r.2.2

/-- Wait for a status indicating that the next page can be sent. -/
def wait_for_page_end (w : World) : World :=
  wait_for_page_end_loop 25 ql_status.zero w

/-- The loop of `init`, with the number of rounds left and the current value
of `flush`. -/
def init_loop : Nat → Bool → ql_status → List Nat → List BackChannelRead →
    Bool × ql_status × List Nat × List BackChannelRead
  | 0, _, status, device, bc => (false, status, device, bc)
  | n + 1, flush, status, device, bc =>
    let device := ql_init flush device
    let r := request_status status device bc
    if !r.1 then init_loop n flush r.2.1 r.2.2.1 r.2.2.2
    else if r.2.1.print_head_mark = 0x80 then (true, r.2.1, r.2.2.1, r.2.2.2)
    else init_loop n true r.2.1 r.2.2.1 r.2.2.2

/-- Initialise the printer. Returns the result, the status object, the device
stream and the rest of the back-channel. -/
def init (status : ql_status) (device : List Nat) (bc : List BackChannelRead) :
    Bool × ql_status × List Nat × List BackChannelRead :=
  init_loop 10 false status device bc

/-- Insert blank lines into raster data (`count` is a `uint32_t`,
`buffer_size` a `size_t`). -/
def print_blank_lines (count buffer_size : Nat) (device : List Nat) : List Nat :=
  let buffer := zero_buffer buffer_size
  match count with
  | 0 => device
  | i + 1 => print_blank_lines i buffer_size (ql_raster (buffer_size % 256) buffer device)

/-- The pixel-row loop of `handle_page`, with the number of rounds left
(`header.cupsHeight - i`). Returns the device stream and the rest of the
raster script. The contents of `buffer` before a read are never used (a read
that returns 0 leaves the loop), so the buffer is not carried from round to
round; `output_buffer` is. -/
def handle_page_rows : Nat → Nat → Nat → List Nat → List Nat → List RasterRead →
    List Nat × List RasterRead
  | 0, _, _, _, fout, raster => (fout, raster)
  | n + 1, cupsBytesPerLine, output_buffer_size, output_buffer, fout, raster =>
    let r := cupsRasterReadPixels raster (zero_buffer cupsBytesPerLine)
    if !r.1 then (fout, r.2.2)
    else
      let buffer := r.2.1
      let output_buffer :=
        if cupsBytesPerLine < output_buffer_size
        then memcpy output_buffer buffer cupsBytesPerLine
        else memcpy output_buffer buffer output_buffer_size
      let fout := ql_raster (output_buffer_size % 256) output_buffer fout
      handle_page_rows n cupsBytesPerLine output_buffer_size output_buffer fout r.2.2

/-- The `print_info` record that `handle_page` builds. -/
def handle_page_print_info (header : cups_page_header2_t) (page_counter : Nat) :
    ql_print_info :=
  let cupsHeight := header.cupsHeight
  let cupsHeight := if cupsHeight < 150 then 150 else cupsHeight
  { valid_flag := PIV_QUALITY
    media_type := 0
    media_width := 0
    media_length := 0
    raster_number_0 := cupsHeight &&& 0x00FF
    raster_number_1 := (cupsHeight &&& 0xFF00) >>> 8
    raster_number_2 := 0
    raster_number_3 := 0
    successive_page := if page_counter > 0 then 1 else 0
    _fixed := 0 }

/-- The value of `int blanks = 150 - header.cupsHeight`. -/
def handle_page_blanks (header : cups_page_header2_t) : Int :=
  to_int (unsigned_sub 150 header.cupsHeight)

/-- Print a page. -/
def handle_page (header : cups_page_header2_t) (_status : ql_status)
    (page_counter : Nat) (w : World) : World :=
  let print_info := handle_page_print_info header page_counter
  let fout := ql_page_start print_info w.fout
  let fout :=
    if header.HWResolution.2 = 600 then ql_set_extended_options true true fout
    else ql_set_extended_options true false fout
  let output_buffer_size := 90
  let output_buffer := zero_buffer output_buffer_size
  let blanks := handle_page_blanks header
  let fout :=
    if blanks > 0 then
      print_blank_lines (to_uint32 (Int.tdiv blanks 2)) output_buffer_size fout
    else fout
  let r := handle_page_rows header.cupsHeight header.cupsBytesPerLine
    output_buffer_size output_buffer fout w.raster
  let fout := r.1
  let fout :=
    if blanks > 0 then
      print_blank_lines (to_uint32 (Int.tdiv blanks 2 + Int.tmod blanks 2))
        output_buffer_size fout
    else fout
  let fout := ql_raster_end (output_buffer_size % 256) fout
  let fout := ql_page_end false fout
  wait_for_page_end { w with fout := fout, raster := r.2 }

/-! ## Vocabulary of the statements -/

/-- The nine error conditions of an Error status, in the order in which they
are tested: the field tested, the bit mask, the line reported. -/
def error_conditions (s : ql_status) : List (Nat × Nat × String) :=
  [ (s.error_info_1, 0x01, "ERROR: No media.\n"),
    (s.error_info_1, 0x02, "ERROR: End of media.\n"),
    (s.error_info_1, 0x04, "ERROR: Tape cutter jam.\n"),
    (s.error_info_1, 0x10, "ERROR: Main unit in use.\n"),
    (s.error_info_1, 0x80, "ERROR: Fan malfunction.\n"),
    (s.error_info_2, 0x01, "ERROR: Wrong media.\n"),
    (s.error_info_2, 0x04, "ERROR: Transmission error.\n"),
    (s.error_info_2, 0x10, "ERROR: Cover opened.\n"),
    (s.error_info_2, 0x40, "ERROR: Cannot feed.\n") ]

/-- The number encoded little-endian by four bytes. -/
def le32 (b0 b1 b2 b3 : Nat) : Nat := b0 + 256 * b1 + 65536 * b2 + 16777216 * b3

/-- The line count that a print-info record declares. -/
def ql_print_info.line_count (p : ql_print_info) : Nat :=
  le32 p.raster_number_0 p.raster_number_1 p.raster_number_2 p.raster_number_3

/-- A raster line frame holding 90 zero bytes. -/
def blank_frame : List Nat := [0x67, 0x00, 90] ++ List.replicate 90 0

/-- The raster line frame for a pixel row read with `cupsBytesPerLine = w`:
the row cut to 90 bytes, or filled up to 90 bytes with zeros. -/
def row_frame (w : Nat) (row : List Nat) : List Nat :=
  [0x67, 0x00, 90] ++ (row.take 90 ++ List.replicate (90 - w) 0)

/-- Whether a back-channel outcome fills the whole 32-byte status object. -/
def read_full : BackChannelRead → Bool
  | BackChannelRead.error => false
  | BackChannelRead.data d => decide (32 ≤ d.length)

/-- The status record that a full back-channel outcome leaves in the status
object. -/
def read_status : BackChannelRead → ql_status
  | BackChannelRead.error => ql_status.zero
  | BackChannelRead.data d => ql_status.ofBytes (d.take 32)

/-- Whether a back-channel outcome ends the polling: a full frame with the
right first byte that `handle_status` classifies as terminal. -/
def poll_terminal (o : BackChannelRead) : Bool :=
  read_full o && decide ((read_status o).print_head_mark = 0x80) &&
    (handle_status (read_status o)).1

/-- The lines that one polling attempt prints for a back-channel outcome. -/
def poll_lines (o : BackChannelRead) : List String :=
  if read_full o = false then ["ERROR: Backchannel short read, retrying.\n"]
  else if (read_status o).print_head_mark ≠ 0x80 then
    ["ERROR: Print status returned is invalid, retrying.\n"]
  else (handle_status (read_status o)).2

/-- Whether a back-channel outcome lets `init` succeed: a full frame whose
first byte is 0x80. -/
def init_valid (o : BackChannelRead) : Bool :=
  read_full o && decide ((read_status o).print_head_mark = 0x80)

/-- The bytes that one attempt of `init` writes: the initialise command,
after 200 zero bytes when flushing, and the status request. -/
def init_attempt (flush : Bool) : List Nat :=
  (if flush then List.replicate 200 0 else []) ++ [0x1B, 0x40] ++ [0x1B, 0x69, 0x53]

/-- The number of blank raster lines `handle_page` inserts before the rows. -/
def leading_blank_lines (header : cups_page_header2_t) : Nat :=
  if handle_page_blanks header > 0 then to_uint32 (Int.tdiv (handle_page_blanks header) 2)
  else 0

/-- The number of blank raster lines `handle_page` inserts after the rows. -/
def trailing_blank_lines (header : cups_page_header2_t) : Nat :=
  if handle_page_blanks header > 0 then
    to_uint32 (Int.tdiv (handle_page_blanks header) 2 + Int.tmod (handle_page_blanks header) 2)
  else 0

/-- The bytes of the page-start and extended-options commands that
`handle_page` writes first. -/
def page_head (header : cups_page_header2_t) (page_counter : Nat) : List Nat :=
  [0x1B, 0x69, 0x7A] ++ (handle_page_print_info header page_counter).toBytes ++
    [0x1B, 0x69, 0x4B, if header.HWResolution.2 = 600 then 0x48 else 0x08]

/-- Whether a back-channel outcome is a full frame whose first byte is not
0x80. -/
def read_invalid (o : BackChannelRead) : Bool :=
  read_full o && decide ((read_status o).print_head_mark ≠ 0x80)

/-- The value of `flush` at attempt `k` (counted from 0) of `init` on a
back-channel script: whether one of the `k` earlier outcomes was a full frame
with a wrong first byte. -/
def init_flush (bc : List BackChannelRead) (k : Nat) : Bool :=
  (bc.take k).any read_invalid

/-- Counting the raster line frames at the start of a byte stream, the way the
printer reads them: a frame is the opcode 0x67, the byte 0x00, a length byte
and that many payload bytes; counting stops at the first bytes that do not
start such a frame. The first argument bounds the number of frames read. -/
def count_raster_frames_aux : Nat → List Nat → Nat
  | 0, _ => 0
  | fuel + 1, s =>
    if 3 ≤ s.length ∧ s.getD 0 0 = 0x67 ∧ s.getD 1 0 = 0x00 then
      1 + count_raster_frames_aux fuel (s.drop (3 + s.getD 2 0))
    else 0

/-- The number of raster line frames at the start of a byte stream. -/
def count_raster_frames (s : List Nat) : Nat := count_raster_frames_aux s.length s

/-- The raster line frames of a page whose rows are all read: leading blank
frames, row frames, trailing blank frames. -/
def page_frames (header : cups_page_header2_t) (rows : List (List Nat)) : List (List Nat) :=
  List.replicate (leading_blank_lines header) blank_frame ++
    rows.map (row_frame header.cupsBytesPerLine) ++
    List.replicate (trailing_blank_lines header) blank_frame

/-! ## Concrete inputs -/

/-- A world with nothing written and nothing to read. -/
def world_empty : World := { fout := [], stderr := [], backchannel := [], raster := [] }

/-- A well-formed status frame with `status_type = ST_COMPLETED`. -/
def status_completed : ql_status :=
  { ql_status.zero with
    print_head_mark := 0x80, size := 32, status_type := ST_COMPLETED }

/-- A well-formed status frame with `status_type = ST_REPLY`. -/
def status_valid : ql_status :=
  { ql_status.zero with
    print_head_mark := 0x80, size := 32 }

/-- An Error status with `NO_MEDIA` and `FAN_MALFUNCTION` both set. -/
def status_error_both : ql_status :=
  { ql_status.zero with
    print_head_mark := 0x80, size := 32, status_type := ST_ERROR,
    error_info_1 := 0x81 }

/-- A Phase-change status with `phase_type = PT_PRINTING`. -/
def status_printing : ql_status :=
  { ql_status.zero with
    print_head_mark := 0x80, size := 32, status_type := ST_PHASE_CHANGE,
    phase_type := PT_PRINTING }

/-- An Error status frame whose first byte is 0x00 instead of 0x80. -/
def status_bad_mark_error : ql_status :=
  { ql_status.zero with
    print_head_mark := 0x00, size := 32, status_type := ST_ERROR,
    error_info_1 := 0x01 }

/-- A Phase-change/Waiting status frame whose first byte is 0x7F instead of
0x80. -/
def status_bad_mark_waiting : ql_status :=
  { ql_status.zero with
    print_head_mark := 0x7F, size := 32, status_type := ST_PHASE_CHANGE,
    phase_type := PT_WAITING }

/-- A print-info record whose ten members are all different. -/
def print_info_example : ql_print_info :=
  { valid_flag := 1, media_type := 2, media_width := 3, media_length := 4,
    raster_number_0 := 5, raster_number_1 := 6, raster_number_2 := 7, raster_number_3 := 8,
    successive_page := 9, _fixed := 10 }

/-- A page of three lines, two bytes per line. -/
def header_three_lines : cups_page_header2_t :=
  { HWResolution := (300, 300), cupsHeight := 3, cupsBytesPerLine := 2 }

/-- The three pixel rows of the page `header_three_lines`. -/
def rows_three_lines : List (List Nat) := [[1, 2], [3, 4], [5, 6]]

/-- The world in which the raster stream delivers `rows_three_lines`. -/
def world_three_lines : World :=
  { fout := [], stderr := [], backchannel := [], raster := rows_three_lines.map some }

/-- A page header with `cupsHeight = 65536`. -/
def header_65536 : cups_page_header2_t :=
  { HWResolution := (300, 300), cupsHeight := 65536, cupsBytesPerLine := 90 }

/-- A page header with `cupsHeight = UINT_MAX`. -/
def header_max : cups_page_header2_t :=
  { HWResolution := (300, 300), cupsHeight := 4294967295, cupsBytesPerLine := 90 }

/-- A Phase-change status with `phase_type = PT_WAITING`. -/
def status_waiting : ql_status :=
  { ql_status.zero with
    print_head_mark := 0x80, size := 32, status_type := ST_PHASE_CHANGE,
    phase_type := PT_WAITING }

/-- A 32-byte status frame with values in the named members. -/
def frame_example : List Nat :=
  [0x80, 0x20, 0x42, 0x30, 0x32, 0x30, 0x00, 0x00,
   0x01, 0x04, 0x3E, 0x0A, 0x00, 0x00, 0x15, 0x00,
   0x00, 0x1D, 0x02, 0x01, 0x07, 0x09, 0x03, 0x00,
   0x11, 0x12, 0x13, 0x14, 0x15, 0x16, 0x17, 0x18]

/-- A Notification status with `notification_type = NT_COOLING_STARTED`. -/
def status_cooling_started : ql_status :=
  { ql_status.zero with
    print_head_mark := 0x80, size := 32, status_type := ST_NOTIFICATION,
    notification_type := NT_COOLING_STARTED }

/-! ## Lemmas -/

theorem ql_status.toBytes_length (s : ql_status) : s.toBytes.length = 32 := rfl

theorem ql_status.ofBytes_toBytes (s : ql_status) : ql_status.ofBytes s.toBytes = s := rfl

theorem ql_status.store_full (s : ql_status) (b : List Nat) (hb : b.length = 32) :
    s.store b = ql_status.ofBytes b := by
  unfold ql_status.store
  rw [List.drop_of_length_le (by rw [ql_status.toBytes_length, hb]), List.append_nil]

theorem fread_one_item_le (size : Nat) (stream : List Nat) : (fread size 1 stream).1 ≤ 1 := by
  unfold fread
  simp only [Nat.mul_one]
  rcases Nat.eq_zero_or_pos size with h | h
  · subst h; simp
  · have : (List.take size stream).length ≤ size := by simp
    calc (List.take size stream).length / size ≤ size / size := Nat.div_le_div_right this
      _ = 1 := Nat.div_self h

theorem ql_status_read_false (status : ql_status) (device : List Nat) :
    (ql_status_read status device).1 = false := by
  have h := fread_one_item_le sizeof_ql_status device
  have h2 : (fread sizeof_ql_status 1 device).1 ≠ sizeof_ql_status := by
    unfold sizeof_ql_status at *; omega
  simp [ql_status_read, h2]

theorem ite_append_singleton (c : Prop) [Decidable c] (out : List String) (m : String) :
    (if c then out ++ [m] else out) = out ++ (if c then [m] else []) := by
  split <;> simp

theorem filter_map_cons_ite {α β : Type} (p : α → Bool) (f : α → β) (x : α) (l : List α) :
    ((x :: l).filter p).map f = (if p x = true then [f x] else []) ++ (l.filter p).map f := by
  by_cases hx : p x = true <;> simp [List.filter_cons, hx]

theorem handle_status_error_eq (s : ql_status) (h : s.status_type = ST_ERROR) :
    handle_status s =
      (true, ((error_conditions s).filter (fun c => c.1 &&& c.2.1 ≠ 0)).map (fun c => c.2.2)) := by
  simp only [handle_status, h, error_conditions, ite_append_singleton, filter_map_cons_ite,
    List.filter_nil, List.map_nil, decide_eq_true_eq]
  simp

theorem low_byte (h : Nat) : h &&& 0x00FF = h % 256 :=
  Nat.and_pow_two_sub_one_eq_mod h 8

theorem high_byte (h : Nat) : (h &&& 0xFF00) >>> 8 = h / 256 % 256 := by
  have e1 : (h &&& 0xFF00) >>> 8 = (h >>> 8) &&& ((0xFF00 : Nat) >>> 8) := by
    apply Nat.eq_of_testBit_eq
    intro i
    simp only [Nat.testBit_shiftRight, Nat.testBit_and]
  have e2 : ((0xFF00 : Nat) >>> 8) = 2 ^ 8 - 1 := by decide
  rw [e1, e2, Nat.and_pow_two_sub_one_eq_mod, Nat.shiftRight_eq_div_pow]

/-- Below 65536 lines the declared line count is the page height raised to at
least 150. -/
theorem handle_page_line_count_small (header : cups_page_header2_t) (page_counter : Nat)
    (hh : header.cupsHeight < 65536) :
    (handle_page_print_info header page_counter).line_count = max header.cupsHeight 150 := by
  simp only [ql_print_info.line_count, handle_page_print_info, le32, low_byte, high_byte]
  split <;> omega

/-- For a 32-bit height, `blanks` is positive exactly below 150 lines and
above 2147483798 lines, where the subtraction wraps to a positive `int`. -/
theorem handle_page_blanks_pos_iff (header : cups_page_header2_t)
    (hh : header.cupsHeight < 4294967296) :
    0 < handle_page_blanks header ↔
      header.cupsHeight < 150 ∨ 2147483798 < header.cupsHeight := by
  unfold handle_page_blanks to_int unsigned_sub UINT_RANGE
  split <;> omega

theorem handle_page_blanks_short (header : cups_page_header2_t)
    (hh : header.cupsHeight < 150) :
    handle_page_blanks header = ((150 - header.cupsHeight : Nat) : Int) := by
  unfold handle_page_blanks to_int unsigned_sub UINT_RANGE
  split <;> omega

theorem to_uint32_half (b : Nat) (hb : b ≤ 150) :
    to_uint32 (Int.tdiv (b : Int) 2) = b / 2 := by
  rw [Int.tdiv_eq_ediv (by omega) (by omega)]
  unfold to_uint32
  omega

theorem to_uint32_half_up (b : Nat) (hb : b ≤ 150) :
    to_uint32 (Int.tdiv (b : Int) 2 + Int.tmod (b : Int) 2) = (b + 1) / 2 := by
  rw [Int.tdiv_eq_ediv (by omega) (by omega), Int.tmod_eq_emod (by omega) (by omega)]
  unfold to_uint32
  omega

theorem print_blank_lines_eq (count : Nat) (device : List Nat) :
    print_blank_lines count 90 device =
      device ++ (List.replicate count blank_frame).flatten := by
  induction count generalizing device with
  | zero => simp [print_blank_lines]
  | succ n ih =>
    rw [print_blank_lines, ih]
    simp [ql_raster, fwrite, zero_buffer, blank_frame, List.replicate_succ]

theorem handle_page_rows_eq (w : Nat) (rows : List (List Nat)) :
    ∀ (n : Nat) (rest : List RasterRead) (ob fout : List Nat),
      rows.length = n → (∀ r ∈ rows, r.length = w) →
      ob.length = 90 → ob.drop w = List.replicate (90 - w) 0 →
      handle_page_rows n w 90 ob fout (rows.map some ++ rest) =
        (fout ++ (rows.map (row_frame w)).flatten, rest) := by
  induction rows with
  | nil =>
    intro n rest ob fout hn _ _ _
    simp at hn
    subst hn
    simp [handle_page_rows]
  | cons r rows ih =>
    intro n rest ob fout hn hw hob hdrop
    simp at hn
    subst hn
    have hr : r.length = w := hw r (by simp)
    have hw2 : ∀ x ∈ rows, x.length = w := fun x hx => hw x (by simp [hx])
    have hob2 : (if w < 90 then memcpy ob r w else memcpy ob r 90) =
        r.take 90 ++ List.replicate (90 - w) 0 := by
      split
      · rename_i hlt
        have : r.take 90 = r := List.take_of_length_le (by omega)
        have : r.take w = r := List.take_of_length_le (by omega)
        simp [memcpy, *]
      · rename_i hge
        have h1 : ob.drop 90 = [] := List.drop_of_length_le (by omega)
        have h2 : 90 - w = 0 := by omega
        simp [memcpy, h1, h2]
    have hlen : (r.take 90 ++ List.replicate (90 - w) 0).length = 90 := by
      simp; omega
    have hdrop2 : (r.take 90 ++ List.replicate (90 - w) 0).drop w =
        List.replicate (90 - w) 0 := by
      by_cases hlt : w < 90
      · have : r.take 90 = r := List.take_of_length_le (by omega)
        rw [this, ← hr]; simp
      · have h2 : 90 - w = 0 := by omega
        rw [h2]
        simp
        omega
    have step := ih rows.length rest (r.take 90 ++ List.replicate (90 - w) 0)
      (ql_raster (90 % 256) (r.take 90 ++ List.replicate (90 - w) 0) fout) rfl hw2 hlen hdrop2
    simp only [List.map_cons, List.cons_append, handle_page_rows, cupsRasterReadPixels,
      Bool.not_true, Bool.false_eq_true, if_false, hob2]
    rw [step]
    have : (r.take 90 ++ List.replicate (90 - w) 0).take 90 =
        r.take 90 ++ List.replicate (90 - w) 0 := List.take_of_length_le (by omega)
    simp [ql_raster, fwrite, row_frame, this]

theorem wait_for_page_end_loop_fout (n : Nat) :
    ∀ (s : ql_status) (w : World), (wait_for_page_end_loop n s w).fout = w.fout := by
  induction n with
  | zero => intro s w; rfl
  | succ n ih =>
    intro s w
    simp only [wait_for_page_end_loop]
    split
    · simp only [wait_for_page_end_round]; split <;> [skip; split] <;> rfl
    · rw [ih]; simp only [wait_for_page_end_round]; split <;> [skip; split] <;> rfl

theorem backchannel_read_status_full (status s : ql_status) (rest : List BackChannelRead) :
    backchannel_read_status status (BackChannelRead.data s.toBytes :: rest) = (true, s, rest) := by
  have h1 : (s.toBytes).take 32 = s.toBytes :=
    List.take_of_length_le (by simp [ql_status.toBytes_length])
  simp [backchannel_read_status, cupsBackChannelRead, sizeof_ql_status, h1,
    ql_status.store_full, ql_status.toBytes_length, ql_status.ofBytes_toBytes]

/-- The contents of the status object at the start of a round of the polling
loop never influence the outcome. -/
theorem wait_for_page_end_loop_status_irrelevant (n : Nat) :
    ∀ (s1 s2 : ql_status) (w : World),
      wait_for_page_end_loop n s1 w = wait_for_page_end_loop n s2 w := by
  induction n with
  | zero => intro s1 s2 w; rfl
  | succ n ih =>
    intro s1 s2 w
    rcases hbc : w.backchannel with _ | ⟨o, rest⟩
    · simp [wait_for_page_end_loop, wait_for_page_end_round, backchannel_read_status,
        cupsBackChannelRead, hbc, sizeof_ql_status]
      exact ih _ _ _
    · cases o with
      | error =>
        simp [wait_for_page_end_loop, wait_for_page_end_round, backchannel_read_status,
          cupsBackChannelRead, hbc, sizeof_ql_status]
        exact ih _ _ _
      | data d =>
        by_cases hd : (d.take 32).length = 32
        · have e1 := ql_status.store_full s1 (d.take 32) hd
          have e2 := ql_status.store_full s2 (d.take 32) hd
          simp only [wait_for_page_end_loop, wait_for_page_end_round, backchannel_read_status,
            cupsBackChannelRead, hbc, sizeof_ql_status, e1, e2]
        · have hd2 : ¬ (((d.take 32).length : Int) = ((32 : Nat) : Int)) := by
            intro h; exact hd (by exact_mod_cast h)
          simp only [wait_for_page_end_loop, wait_for_page_end_round, backchannel_read_status,
            cupsBackChannelRead, hbc, sizeof_ql_status, ne_eq, hd2, not_false_eq_true, if_true,
            Bool.not_false, Bool.false_eq_true, if_false]
          exact ih _ _ _

theorem wait_for_page_end_round_invalid (s status : ql_status) (w : World)
    (rest : List BackChannelRead) (h : s.print_head_mark ≠ 0x80) :
    wait_for_page_end_round status
        { w with backchannel := BackChannelRead.data s.toBytes :: rest } =
      (false, s, { w with
        stderr := w.stderr ++ ["ERROR: Print status returned is invalid, retrying.\n"],
        backchannel := rest }) := by
  simp [wait_for_page_end_round, backchannel_read_status_full, h]

theorem wait_for_page_end_loop_invalid (s status : ql_status) (w : World)
    (rest : List BackChannelRead) (h : s.print_head_mark ≠ 0x80) (n : Nat) :
    wait_for_page_end_loop (n + 1) status
        { w with backchannel := BackChannelRead.data s.toBytes :: rest } =
      wait_for_page_end_loop n status { w with
        stderr := w.stderr ++ ["ERROR: Print status returned is invalid, retrying.\n"],
        backchannel := rest } := by
  rw [wait_for_page_end_loop, wait_for_page_end_round_invalid s status w rest h]
  simp only [Bool.false_eq_true, if_false]
  exact wait_for_page_end_loop_status_irrelevant n _ _ _

/-! ## Status interpretation -/

/-- C1 (amended): for every status record whose `status_type` is Completed
(0x01), `handle_status` classifies it as non-terminal: it returns false and
reports the page as completed with the line "INFO: Page completed."; in
`wait_for_page_end`, a fully read Completed record with `print_head_mark` 0x80
therefore prints that line and polling continues with the next attempt. -/
theorem handle_status_completed (s : ql_status) (h : s.status_type = ST_COMPLETED) :
    handle_status s = (false, ["INFO: Page completed.\n"]) ∧
    (s.print_head_mark = 0x80 →
      ∀ (n : Nat) (status : ql_status) (w : World) (rest : List BackChannelRead),
        wait_for_page_end_loop (n + 1) status
            { w with backchannel := BackChannelRead.data s.toBytes :: rest } =
          wait_for_page_end_loop n status { w with
            stderr := w.stderr ++ ["INFO: Page completed.\n"],
            backchannel := rest }) := by
  have hs : handle_status s = (false, ["INFO: Page completed.\n"]) := by
    simp [handle_status, h]
  refine ⟨hs, ?_⟩
  intro hm n status w rest
  have hr : wait_for_page_end_round status
      { w with backchannel := BackChannelRead.data s.toBytes :: rest } =
      (false, s, { w with
        stderr := w.stderr ++ ["INFO: Page completed.\n"],
        backchannel := rest }) := by
    simp [wait_for_page_end_round, backchannel_read_status_full, hm, hs]
  rw [wait_for_page_end_loop, hr]
  simp only [Bool.false_eq_true, if_false]
  exact wait_for_page_end_loop_status_irrelevant n _ _ _

/-- C1, witness: the amended statement at the record `status_completed`, read
as the first of two frames by `wait_for_page_end`. -/
theorem handle_status_completed_witness :
    status_completed.status_type = ST_COMPLETED ∧
    status_completed.print_head_mark = 0x80 ∧
    handle_status status_completed = (false, ["INFO: Page completed.\n"]) ∧
    wait_for_page_end_loop (24 + 1) ql_status.zero
        { world_empty with
          backchannel := BackChannelRead.data status_completed.toBytes ::
            [BackChannelRead.data status_waiting.toBytes] } =
      wait_for_page_end_loop 24 ql_status.zero { world_empty with
        stderr := world_empty.stderr ++ ["INFO: Page completed.\n"],
        backchannel := [BackChannelRead.data status_waiting.toBytes] } :=
  ⟨by decide, by decide,
    (handle_status_completed status_completed (by decide)).1,
    (handle_status_completed status_completed (by decide)).2 (by decide) 24 ql_status.zero
      world_empty [BackChannelRead.data status_waiting.toBytes]⟩

/-- C1, counterexample: the record `status_completed` has `status_type`
Completed and `handle_status` returns false on it, so it is not true that
every Completed record is classified as terminal. -/
theorem handle_status_completed_not_terminal :
    status_completed.status_type = ST_COMPLETED ∧
      (handle_status status_completed).1 = false ∧
      ¬ (∀ s : ql_status, s.status_type = ST_COMPLETED → (handle_status s).1 = true) := by
  refine ⟨by decide, by decide, ?_⟩
  intro h
  have := h status_completed (by decide)
  revert this
  decide

/-- C9: for every status with `status_type` Error (0x02), `handle_status`
returns true and prints exactly one line for each of the nine conditions whose
bit is set, in the order of `error_conditions`, each bit being tested on its
own; in particular when `NO_MEDIA` and `FAN_MALFUNCTION` are both set, both
lines are printed. -/
theorem handle_status_error (s : ql_status) (h : s.status_type = ST_ERROR) :
    handle_status s =
      (true, ((error_conditions s).filter (fun c => c.1 &&& c.2.1 ≠ 0)).map (fun c => c.2.2)) ∧
    (s.error_info_1 &&& NO_MEDIA ≠ 0 → s.error_info_1 &&& FAN_MALFUNCTION ≠ 0 →
      "ERROR: No media.\n" ∈ (handle_status s).2 ∧
      "ERROR: Fan malfunction.\n" ∈ (handle_status s).2) := by
  have key := handle_status_error_eq s h
  refine ⟨key, ?_⟩
  intro h1 h2
  rw [key]
  simp only [error_conditions, filter_map_cons_ite, decide_eq_true_eq]
  simp only [NO_MEDIA, FAN_MALFUNCTION] at h1 h2
  simp at h1 h2
  simp [h1, h2]

/-- C9, witness: the statement at the record `status_error_both`, whose
`error_info_1` is 0x81; the lines printed are those of `NO_MEDIA` and
`FAN_MALFUNCTION`. -/
theorem handle_status_error_witness :
    status_error_both.status_type = ST_ERROR ∧
    status_error_both.error_info_1 &&& NO_MEDIA ≠ 0 ∧
    status_error_both.error_info_1 &&& FAN_MALFUNCTION ≠ 0 ∧
    handle_status status_error_both =
      (true, ["ERROR: No media.\n", "ERROR: Fan malfunction.\n"]) ∧
    ("ERROR: No media.\n" ∈ (handle_status status_error_both).2 ∧
      "ERROR: Fan malfunction.\n" ∈ (handle_status status_error_both).2) :=
  ⟨by decide, by decide, by decide,
    (handle_status_error status_error_both (by decide)).1.trans (by decide),
    (handle_status_error status_error_both (by decide)).2 (by decide) (by decide)⟩

/-- C10: for every status with `status_type` Phase-change (0x06),
`handle_status` returns true if and only if `phase_type` is Waiting (0x00),
printing "INFO: Ready." in that case; when `phase_type` is Printing (0x01) it
prints "INFO: Printing..." and returns false. -/
theorem handle_status_phase_change (s : ql_status) (h : s.status_type = ST_PHASE_CHANGE) :
    ((handle_status s).1 = true ↔ s.phase_type = PT_WAITING) ∧
    (s.phase_type = PT_WAITING → handle_status s = (true, ["INFO: Ready.\n"])) ∧
    (s.phase_type = PT_PRINTING → handle_status s = (false, ["INFO: Printing...\n"])) := by
  refine ⟨?_, ?_, ?_⟩
  · by_cases hp : s.phase_type = PT_WAITING
    · simp [handle_status, h, hp]
    · by_cases hq : s.phase_type = PT_PRINTING <;> simp [handle_status, h, hp, hq]
  · intro hp; simp [handle_status, h, hp]
  · intro hp; simp [handle_status, h, hp]

/-- C10, witness: the statement at the record `status_printing`. -/
theorem handle_status_phase_change_witness :
    status_printing.status_type = ST_PHASE_CHANGE ∧
    status_printing.phase_type = PT_PRINTING ∧
    ((handle_status status_printing).1 = true ↔ status_printing.phase_type = PT_WAITING) ∧
    handle_status status_printing = (false, ["INFO: Printing...\n"]) :=
  ⟨by decide, by decide,
    (handle_status_phase_change status_printing (by decide)).1,
    (handle_status_phase_change status_printing (by decide)).2.2 (by decide)⟩

/-! ## Codec -/

/-- C3: evaluation of `ql_status_read` on a stream holding one full 32-byte
status frame: the frame is stored in the status object, yet the function
returns false; indeed it returns false on every input, because the item count
returned by `fread` (at most 1) is compared with `sizeof(ql_status)`. -/
theorem ql_status_read_full_frame_fails :
    status_valid.toBytes.length = 32 ∧
    ql_status_read ql_status.zero status_valid.toBytes = (false, status_valid, []) ∧
    ∀ (status : ql_status) (device : List Nat), (ql_status_read status device).1 = false :=
  ⟨by decide, by decide, ql_status_read_false⟩

/-- C4 (amended): for every print-info record, `ql_page_start` writes exactly
13 bytes: the 3-byte command 0x1B 0x69 0x7A followed by the 10-byte record
(`valid_flag`, `media_type`, `media_width`, `media_length`, the four
`raster_number` bytes, `successive_page`, `_fixed`) in that order. -/
theorem ql_page_start_bytes (p : ql_print_info) (device : List Nat) :
    ql_page_start p device =
      device ++ [0x1B, 0x69, 0x7A] ++
        [p.valid_flag, p.media_type, p.media_width, p.media_length,
         p.raster_number_0, p.raster_number_1, p.raster_number_2, p.raster_number_3,
         p.successive_page, p._fixed] ∧
    (ql_page_start p device).length = device.length + 13 := by
  simp [ql_page_start, fwrite, ql_print_info.toBytes, sizeof_ql_print_info]

/-- C4, counterexample: for the record `print_info_example`, `ql_page_start`
writes 13 bytes, not 12; the last one is the member `_fixed`. -/
theorem ql_page_start_writes_13_bytes :
    ql_page_start print_info_example [] =
      [0x1B, 0x69, 0x7A, 1, 2, 3, 4, 5, 6, 7, 8, 9, 10] ∧
    (ql_page_start print_info_example []).length = 13 ∧
    (ql_page_start print_info_example []).length ≠ 12 := by
  refine ⟨by decide, by decide, by decide⟩

/-! ## Initialisation -/

/-- C2: evaluation of `init` when the first status read is short and the
second delivers a valid frame: both attempts send the bare 2-byte initialise
command, so the second attempt runs `ql_init` with `flush = false` and the 200
zero bytes are not sent. -/
theorem init_second_attempt_after_short_read :
    init ql_status.zero [] [BackChannelRead.data [], BackChannelRead.data status_valid.toBytes] =
      (true, status_valid,
        ql_status_request (ql_init false (ql_status_request (ql_init false []))), []) ∧
    ql_status_request (ql_init false (ql_status_request (ql_init false []))) =
      [0x1B, 0x40, 0x1B, 0x69, 0x53, 0x1B, 0x40, 0x1B, 0x69, 0x53] ∧
    ql_status_request (ql_init false (ql_status_request (ql_init false []))) ≠
      ql_status_request (ql_init true (ql_status_request (ql_init false []))) := by
  refine ⟨by decide, by decide, by decide⟩

/-! ## Page emission -/

/-- C5: evaluation of `handle_page` on a page of 65536 lines: the four
`raster_number` bytes sent to the printer are all zero, so the line count they
encode is 0, which is neither max(65536, 150) nor at least 150. -/
theorem handle_page_line_count_65536 :
    (handle_page_print_info header_65536 0).toBytes = [0x40, 0, 0, 0, 0, 0, 0, 0, 0, 0] ∧
    (handle_page header_65536 ql_status.zero 0 world_empty).fout.take 13 =
      [0x1B, 0x69, 0x7A, 0x40, 0, 0, 0, 0, 0, 0, 0, 0, 0] ∧
    (handle_page_print_info header_65536 0).line_count = 0 ∧
    (handle_page_print_info header_65536 0).line_count ≠ max header_65536.cupsHeight 150 := by
  refine ⟨by decide, by decide, by decide, by decide⟩

/-- C6: for every requested line count n < 150, when the raster stream
supplies all n rows (each of `cupsBytesPerLine` bytes), `handle_page` writes,
after the page-start and extended-options commands, floor((150-n)/2) blank
raster frames, then the n row frames, then ceil((150-n)/2) blank raster
frames, then the raster-end frame and the page-end byte; the two blank counts
and n add up to 150, the trailing count is at least the leading count and
exceeds it by 0 or 1. -/
theorem handle_page_short_page_padding (header : cups_page_header2_t) (status : ql_status)
    (page_counter : Nat) (w : World) (rows : List (List Nat)) (rest : List RasterRead)
    (hn : header.cupsHeight < 150)
    (hraster : w.raster = rows.map some ++ rest)
    (hrows : rows.length = header.cupsHeight)
    (hwidth : ∀ r ∈ rows, r.length = header.cupsBytesPerLine) :
    (handle_page header status page_counter w).fout =
      (if header.HWResolution.2 = 600 then
          ql_set_extended_options true true
            (ql_page_start (handle_page_print_info header page_counter) w.fout)
        else
          ql_set_extended_options true false
            (ql_page_start (handle_page_print_info header page_counter) w.fout))
        ++ (List.replicate ((150 - header.cupsHeight) / 2) blank_frame).flatten
        ++ (rows.map (row_frame header.cupsBytesPerLine)).flatten
        ++ (List.replicate ((150 - header.cupsHeight + 1) / 2) blank_frame).flatten
        ++ ([0x67, 0xFF, 90] ++ List.replicate 90 0) ++ [0x0C] ∧
    (150 - header.cupsHeight) / 2 + header.cupsHeight + (150 - header.cupsHeight + 1) / 2 = 150 ∧
    (150 - header.cupsHeight) / 2 ≤ (150 - header.cupsHeight + 1) / 2 ∧
    ((150 - header.cupsHeight + 1) / 2 - (150 - header.cupsHeight) / 2 = 0 ∨
     (150 - header.cupsHeight + 1) / 2 - (150 - header.cupsHeight) / 2 = 1) := by
  refine ⟨?_, by omega, by omega, by omega⟩
  have hb := handle_page_blanks_short header hn
  have hpos : handle_page_blanks header > 0 := by rw [hb]; omega
  have hrowsEq := handle_page_rows_eq header.cupsBytesPerLine rows header.cupsHeight rest
    (zero_buffer 90)
  simp only [handle_page, wait_for_page_end, wait_for_page_end_loop_fout, hpos, if_true,
    hraster]
  rw [hb, to_uint32_half _ (by omega), to_uint32_half_up _ (by omega)]
  rw [print_blank_lines_eq]
  rw [hrowsEq _ hrows hwidth (by simp [zero_buffer])
    (by unfold zero_buffer; rw [List.drop_replicate])]
  simp only []
  rw [print_blank_lines_eq]
  simp [ql_raster_end, ql_page_end, fwrite, zero_buffer]

/-- C6, witness: the statement at a page of three lines of two bytes: 73
blank frames, the three row frames, 74 blank frames. -/
theorem handle_page_short_page_padding_witness :
    header_three_lines.cupsHeight < 150 ∧
    world_three_lines.raster = rows_three_lines.map some ++ [] ∧
    rows_three_lines.length = header_three_lines.cupsHeight ∧
    (150 - header_three_lines.cupsHeight) / 2 = 73 ∧
    (150 - header_three_lines.cupsHeight + 1) / 2 = 74 ∧
    (handle_page header_three_lines ql_status.zero 0 world_three_lines).fout =
      (if header_three_lines.HWResolution.2 = 600 then
          ql_set_extended_options true true
            (ql_page_start (handle_page_print_info header_three_lines 0) world_three_lines.fout)
        else
          ql_set_extended_options true false
            (ql_page_start (handle_page_print_info header_three_lines 0) world_three_lines.fout))
        ++ (List.replicate ((150 - header_three_lines.cupsHeight) / 2) blank_frame).flatten
        ++ (rows_three_lines.map (row_frame header_three_lines.cupsBytesPerLine)).flatten
        ++ (List.replicate ((150 - header_three_lines.cupsHeight + 1) / 2) blank_frame).flatten
        ++ ([0x67, 0xFF, 90] ++ List.replicate 90 0) ++ [0x0C] :=
  ⟨by decide, by decide, by decide, by decide, by decide,
    (handle_page_short_page_padding header_three_lines ql_status.zero 0 world_three_lines
      rows_three_lines [] (by decide) (by decide) (by decide) (by decide)).1⟩

set_option maxRecDepth 1000000 in
/-- C7: evaluation of `handle_page` on a page whose `cupsHeight` is
4294967295: the value of `blanks` is 151, which is positive, and the page is
written with 75 leading and 76 trailing blank raster lines although the line
count is not below 150. -/
theorem handle_page_max_height_blank_lines :
    150 ≤ header_max.cupsHeight ∧ header_max.cupsHeight < 4294967296 ∧
    handle_page_blanks header_max = 151 ∧
    (handle_page header_max ql_status.zero 0 world_empty).fout =
      ql_page_end false (ql_raster_end 90
        (print_blank_lines 76 90 (print_blank_lines 75 90
          (ql_set_extended_options true false
            (ql_page_start (handle_page_print_info header_max 0) []))))) := by
  refine ⟨by decide, by decide, by decide, ?_⟩
  rfl

/-! ## Page completion polling -/

/-- C8: in `wait_for_page_end`, a fully read status record whose
`print_head_mark` is not 0x80 is rejected without any other field being
consulted: for any two such records `s1` and `s2`, the round prints the
invalid-status line and nothing else, does not return, and the loop goes on
with one round less, in the same way for both records. -/
theorem wait_for_page_end_rejects_invalid_mark (s1 s2 status : ql_status) (w : World)
    (rest : List BackChannelRead) (n : Nat)
    (h1 : s1.print_head_mark ≠ 0x80) (h2 : s2.print_head_mark ≠ 0x80) :
    wait_for_page_end_round status
        { w with backchannel := BackChannelRead.data s1.toBytes :: rest } =
      (false, s1, { w with
        stderr := w.stderr ++ ["ERROR: Print status returned is invalid, retrying.\n"],
        backchannel := rest }) ∧
    wait_for_page_end_round status
        { w with backchannel := BackChannelRead.data s2.toBytes :: rest } =
      (false, s2, { w with
        stderr := w.stderr ++ ["ERROR: Print status returned is invalid, retrying.\n"],
        backchannel := rest }) ∧
    wait_for_page_end_loop (n + 1) status
        { w with backchannel := BackChannelRead.data s1.toBytes :: rest } =
      wait_for_page_end_loop n status { w with
        stderr := w.stderr ++ ["ERROR: Print status returned is invalid, retrying.\n"],
        backchannel := rest } ∧
    wait_for_page_end_loop (n + 1) status
        { w with backchannel := BackChannelRead.data s1.toBytes :: rest } =
      wait_for_page_end_loop (n + 1) status
        { w with backchannel := BackChannelRead.data s2.toBytes :: rest } :=
  ⟨wait_for_page_end_round_invalid s1 status w rest h1,
    wait_for_page_end_round_invalid s2 status w rest h2,
    wait_for_page_end_loop_invalid s1 status w rest h1 n,
    (wait_for_page_end_loop_invalid s1 status w rest h1 n).trans
      (wait_for_page_end_loop_invalid s2 status w rest h2 n).symm⟩

/-- C8, witness: the statement at an Error record and a Phase-change/Waiting
record with wrong first bytes, either of which `handle_status` would classify
as terminal: the whole of `wait_for_page_end` gives the same result on both. -/
theorem wait_for_page_end_rejects_invalid_mark_witness :
    status_bad_mark_error.print_head_mark ≠ 0x80 ∧
    status_bad_mark_waiting.print_head_mark ≠ 0x80 ∧
    (handle_status status_bad_mark_error).1 = true ∧
    (handle_status status_bad_mark_waiting).1 = true ∧
    wait_for_page_end_loop (24 + 1) ql_status.zero
        { world_empty with backchannel := BackChannelRead.data status_bad_mark_error.toBytes :: [] } =
      wait_for_page_end_loop (24 + 1) ql_status.zero
        { world_empty with
          backchannel := BackChannelRead.data status_bad_mark_waiting.toBytes :: [] } :=
  ⟨by decide, by decide, by decide, by decide,
    (wait_for_page_end_rejects_invalid_mark status_bad_mark_error status_bad_mark_waiting
      ql_status.zero world_empty [] 24 (by decide) (by decide)).2.2.2⟩

/-! ## Lemmas on the back-channel, the loops and the page stream -/

theorem backchannel_read_status_cons (status : ql_status) (o : BackChannelRead)
    (rest : List BackChannelRead) :
    (backchannel_read_status status (o :: rest)).1 = read_full o ∧
    (backchannel_read_status status (o :: rest)).2.2 = rest ∧
    (read_full o = true → (backchannel_read_status status (o :: rest)).2.1 = read_status o) := by
  cases o with
  | error =>
    simp [backchannel_read_status, cupsBackChannelRead, read_full, sizeof_ql_status]
  | data d =>
    by_cases hd : 32 ≤ d.length
    · have hl : (d.take 32).length = 32 := by simp; omega
      have hs := ql_status.store_full status (d.take 32) hl
      simp [backchannel_read_status, cupsBackChannelRead, read_full, read_status,
        sizeof_ql_status, hd, hs]
    · have hl : ¬ (min 32 d.length = 32) := by omega
      simp [backchannel_read_status, cupsBackChannelRead, read_full, sizeof_ql_status, hd]

theorem backchannel_read_status_nil (status : ql_status) :
    backchannel_read_status status [] = (false, status, []) := by
  simp [backchannel_read_status, cupsBackChannelRead, sizeof_ql_status]

theorem wait_for_page_end_round_cons (status : ql_status) (w : World) (o : BackChannelRead)
    (rest : List BackChannelRead) (hbc : w.backchannel = o :: rest) :
    (wait_for_page_end_round status w).1 = poll_terminal o ∧
    (wait_for_page_end_round status w).2.2 =
      { w with backchannel := rest, stderr := w.stderr ++ poll_lines o } := by
  obtain ⟨h1, h2, h3⟩ := backchannel_read_status_cons status o rest
  by_cases hf : read_full o = true
  · have h3 := h3 hf
    by_cases hm : (read_status o).print_head_mark = 0x80
    · simp [wait_for_page_end_round, hbc, h1, h2, h3, hf, hm, poll_terminal, poll_lines]
    · simp [wait_for_page_end_round, hbc, h1, h2, h3, hf, hm, poll_terminal, poll_lines]
  · simp at hf
    simp [wait_for_page_end_round, hbc, h1, h2, hf, poll_terminal, poll_lines]

theorem wait_for_page_end_round_nil (status : ql_status) (w : World)
    (hbc : w.backchannel = []) :
    (wait_for_page_end_round status w).1 = false ∧
    (wait_for_page_end_round status w).2.2.backchannel = [] := by
  simp [wait_for_page_end_round, hbc, backchannel_read_status_nil]

theorem wait_for_page_end_loop_consumes (n : Nat) :
    ∀ (s : ql_status) (w : World),
      ∃ k, k ≤ n ∧ (wait_for_page_end_loop n s w).backchannel = w.backchannel.drop k := by
  induction n with
  | zero => intro s w; exact ⟨0, le_refl _, rfl⟩
  | succ n ih =>
    intro s w
    rcases hbc : w.backchannel with _ | ⟨o, rest⟩
    · obtain ⟨h1, h2⟩ := wait_for_page_end_round_nil s w hbc
      obtain ⟨k, hk, e⟩ := ih (wait_for_page_end_round s w).2.1 (wait_for_page_end_round s w).2.2
      refine ⟨0, by omega, ?_⟩
      simp only [wait_for_page_end_loop, h1, Bool.false_eq_true, if_false, e, h2]
      simp
    · obtain ⟨h1, h2⟩ := wait_for_page_end_round_cons s w o rest hbc
      by_cases ht : poll_terminal o = true
      · refine ⟨1, by omega, ?_⟩
        simp [wait_for_page_end_loop, h1, ht, h2]
      · obtain ⟨k, hk, e⟩ := ih (wait_for_page_end_round s w).2.1 (wait_for_page_end_round s w).2.2
        refine ⟨k + 1, by omega, ?_⟩
        rw [h2] at e
        simp only [wait_for_page_end_loop, h1, ht, h2, Bool.false_eq_true, if_false]
        rw [e]
        simp

theorem wait_for_page_end_loop_skip (pre : List BackChannelRead) :
    ∀ (n : Nat) (s : ql_status) (w : World) (rest : List BackChannelRead),
      (∀ o ∈ pre, poll_terminal o = false) →
      wait_for_page_end_loop (pre.length + n) s { w with backchannel := pre ++ rest } =
        wait_for_page_end_loop n s { w with
          backchannel := rest, stderr := w.stderr ++ (pre.map poll_lines).flatten } := by
  induction pre with
  | nil => intro n s w rest _; simp
  | cons o pre ih =>
    intro n s w rest hpre
    have ho : poll_terminal o = false := hpre o (by simp)
    have hpre2 : ∀ x ∈ pre, poll_terminal x = false := fun x hx => hpre x (by simp [hx])
    obtain ⟨h1, h2⟩ := wait_for_page_end_round_cons s
      { w with backchannel := (o :: pre) ++ rest } o (pre ++ rest) rfl
    have e : (o :: pre).length + n = (pre.length + n) + 1 := by simp; omega
    rw [e, wait_for_page_end_loop]
    simp only [h1, ho, Bool.false_eq_true, if_false, h2]
    rw [wait_for_page_end_loop_status_irrelevant _ _ s]
    have := ih n s { w with stderr := w.stderr ++ poll_lines o } rest hpre2
    simpa using this

theorem ql_init_append (flush : Bool) (device : List Nat) :
    ql_init flush device =
      device ++ (if flush then List.replicate 200 0 else []) ++ [0x1B, 0x40] := by
  have h : (List.replicate 200 (0 : Nat)).take (1 * 200) = List.replicate 200 0 :=
    List.take_of_length_le (by rw [List.length_replicate])
  cases flush
  · simp only [Bool.false_eq_true, if_false, List.append_nil]
    rfl
  · simp only [if_true]
    show (device ++ (List.replicate 200 0).take (1 * 200)) ++ [0x1B, 0x40].take (2 * 1) = _
    rw [h]
    rfl

theorem init_attempt_device (flush : Bool) (device : List Nat) :
    ql_status_request (ql_init flush device) = device ++ init_attempt flush := by
  rw [ql_init_append]
  simp only [ql_status_request, fwrite, init_attempt, List.append_assoc]
  rfl

theorem init_loop_step (n : Nat) (flush : Bool) (status : ql_status) (device : List Nat)
    (o : BackChannelRead) (rest : List BackChannelRead) :
    (init_valid o = true →
      init_loop (n + 1) flush status device (o :: rest) =
        (true, read_status o, device ++ init_attempt flush, rest)) ∧
    (init_valid o = false →
      ∃ flush2 status2,
        init_loop (n + 1) flush status device (o :: rest) =
          init_loop n flush2 status2 (device ++ init_attempt flush) rest) := by
  obtain ⟨h1, h2, h3⟩ := backchannel_read_status_cons status o rest
  have hd := init_attempt_device flush device
  by_cases hf : read_full o = true
  · have h3 := h3 hf
    by_cases hm : (read_status o).print_head_mark = 0x80
    · refine ⟨fun _ => ?_, fun hv => ?_⟩
      · simp [init_loop, request_status, h1, h2, h3, hf, hm, hd]
      · simp [init_valid, hf, hm] at hv
    · refine ⟨fun hv => ?_, fun _ => ⟨true, read_status o, ?_⟩⟩
      · simp [init_valid, hf, hm] at hv
      · simp [init_loop, request_status, h1, h2, h3, hf, hm, hd]
  · simp at hf
    refine ⟨fun hv => ?_, fun _ =>
      ⟨flush, (backchannel_read_status status (o :: rest)).2.1, ?_⟩⟩
    · simp [init_valid, hf] at hv
    · simp [init_loop, request_status, h1, h2, hf, hd]

theorem init_loop_nil (n : Nat) :
    ∀ (flush : Bool) (status : ql_status) (device : List Nat),
      (init_loop n flush status device []).1 = false := by
  induction n with
  | zero => intro _ _ _; rfl
  | succ n ih =>
    intro flush status device
    simp [init_loop, request_status, backchannel_read_status_nil, ih]

theorem init_loop_result (n : Nat) :
    ∀ (flush : Bool) (status : ql_status) (device : List Nat) (bc : List BackChannelRead),
      (init_loop n flush status device bc).1 = (bc.take n).any init_valid := by
  induction n with
  | zero => intro _ _ _ _; rfl
  | succ n ih =>
    intro flush status device bc
    cases bc with
    | nil => rw [init_loop_nil]; rfl
    | cons o rest =>
      obtain ⟨hs, hc⟩ := init_loop_step n flush status device o rest
      by_cases hv : init_valid o = true
      · rw [hs hv]; simp [hv]
      · simp at hv
        obtain ⟨f2, s2, e⟩ := hc hv
        rw [e, ih]
        simp [hv]

theorem init_loop_skip (pre : List BackChannelRead) :
    ∀ (n : Nat) (flush : Bool) (status : ql_status) (device : List Nat)
      (rest : List BackChannelRead),
      (∀ o ∈ pre, init_valid o = false) →
      ∃ (flush2 : Bool) (status2 : ql_status) (flags : List Bool),
        flags.length = pre.length ∧
        init_loop (pre.length + n) flush status device (pre ++ rest) =
          init_loop n flush2 status2 (device ++ (flags.map init_attempt).flatten) rest := by
  induction pre with
  | nil =>
    intro n flush status device rest _
    exact ⟨flush, status, [], rfl, by simp⟩
  | cons o pre ih =>
    intro n flush status device rest hpre
    have ho : init_valid o = false := hpre o (by simp)
    have hpre2 : ∀ x ∈ pre, init_valid x = false := fun x hx => hpre x (by simp [hx])
    obtain ⟨f1, s1, e1⟩ := (init_loop_step (pre.length + n) flush status device o
      (pre ++ rest)).2 ho
    obtain ⟨f2, s2, flags, hl, e2⟩ := ih n f1 s1 (device ++ init_attempt flush) rest hpre2
    refine ⟨f2, s2, flush :: flags, by simp [hl], ?_⟩
    have e : (o :: pre).length + n = (pre.length + n) + 1 := by simp; omega
    rw [e, List.cons_append, e1, e2]
    simp

theorem handle_page_fout_eq (header : cups_page_header2_t) (status : ql_status)
    (page_counter : Nat) (w : World) :
    (handle_page header status page_counter w).fout =
      (handle_page_rows header.cupsHeight header.cupsBytesPerLine 90 (zero_buffer 90)
        (w.fout ++ page_head header page_counter ++
          (List.replicate (leading_blank_lines header) blank_frame).flatten) w.raster).1
        ++ (List.replicate (trailing_blank_lines header) blank_frame).flatten
        ++ ([0x67, 0xFF, 90] ++ List.replicate 90 0) ++ [0x0C] := by
  have hhead : (if header.HWResolution.2 = 600 then
        ql_set_extended_options true true
          (ql_page_start (handle_page_print_info header page_counter) w.fout)
      else
        ql_set_extended_options true false
          (ql_page_start (handle_page_print_info header page_counter) w.fout)) =
      w.fout ++ page_head header page_counter := by
    have hp : ql_page_start (handle_page_print_info header page_counter) w.fout =
        w.fout ++ ([0x1B, 0x69, 0x7A] ++ (handle_page_print_info header page_counter).toBytes) := by
      simp [ql_page_start, fwrite, ql_print_info.toBytes, sizeof_ql_print_info]
    have ht : ∀ d : List Nat,
        ql_set_extended_options true true d = d ++ [0x1B, 0x69, 0x4B, 0x48] := fun _ => rfl
    have hf : ∀ d : List Nat,
        ql_set_extended_options true false d = d ++ [0x1B, 0x69, 0x4B, 0x08] := fun _ => rfl
    rw [hp, ht, hf]
    split
    · rename_i h
      simp only [page_head, h, if_true, List.append_assoc]
    · rename_i h
      simp only [page_head, h, if_false, List.append_assoc]
  have hend : ∀ d : List Nat, ql_page_end false (ql_raster_end (90 % 256) d) =
      d ++ ([0x67, 0xFF, 90] ++ List.replicate 90 0) ++ [0x0C] := by
    intro d
    simp [ql_page_end, ql_raster_end, fwrite, zero_buffer]
  simp only [handle_page, wait_for_page_end, wait_for_page_end_loop_fout, hhead, hend]
  by_cases hb : handle_page_blanks header > 0
  · simp only [hb, if_true, leading_blank_lines, trailing_blank_lines, print_blank_lines_eq]
  · simp only [hb, if_false, leading_blank_lines, trailing_blank_lines, List.replicate_zero,
      List.flatten_nil, List.append_nil]

theorem handle_page_rows_zero (w : Nat) (ob fout : List Nat) (raster : List RasterRead) :
    handle_page_rows 0 w 90 ob fout raster = (fout, raster) := rfl

theorem handle_page_rows_nil (n w : Nat) (ob fout : List Nat) :
    (handle_page_rows n w 90 ob fout []).1 = fout := by
  cases n <;> simp [handle_page_rows, cupsRasterReadPixels]

theorem handle_page_rows_none (n w : Nat) (ob fout : List Nat) (rest : List RasterRead) :
    (handle_page_rows n w 90 ob fout (none :: rest)).1 = fout := by
  cases n <;> simp [handle_page_rows, cupsRasterReadPixels]

theorem handle_page_rows_read (w : Nat) (rows : List (List Nat)) :
    ∀ (n : Nat) (rest : List RasterRead) (ob fout : List Nat),
      (∀ r ∈ rows, r.length = w) →
      ob.length = 90 → ob.drop w = List.replicate (90 - w) 0 →
      ∃ ob2 : List Nat,
        handle_page_rows (rows.length + n) w 90 ob fout (rows.map some ++ rest) =
          handle_page_rows n w 90 ob2 (fout ++ (rows.map (row_frame w)).flatten) rest := by
  induction rows with
  | nil =>
    intro n rest ob fout _ _ _
    exact ⟨ob, by simp⟩
  | cons r rows ih =>
    intro n rest ob fout hw hob hdrop
    have hr : r.length = w := hw r (by simp)
    have hw2 : ∀ x ∈ rows, x.length = w := fun x hx => hw x (by simp [hx])
    have hob2 : (if w < 90 then memcpy ob r w else memcpy ob r 90) =
        r.take 90 ++ List.replicate (90 - w) 0 := by
      split
      · rename_i hlt
        have : r.take 90 = r := List.take_of_length_le (by omega)
        have : r.take w = r := List.take_of_length_le (by omega)
        simp [memcpy, *]
      · rename_i hge
        have h1 : ob.drop 90 = [] := List.drop_of_length_le (by omega)
        have h2 : 90 - w = 0 := by omega
        simp [memcpy, h1, h2]
    have hlen : (r.take 90 ++ List.replicate (90 - w) 0).length = 90 := by
      simp; omega
    have hdrop2 : (r.take 90 ++ List.replicate (90 - w) 0).drop w =
        List.replicate (90 - w) 0 := by
      by_cases hlt : w < 90
      · have : r.take 90 = r := List.take_of_length_le (by omega)
        rw [this, ← hr]; simp
      · have h2 : 90 - w = 0 := by omega
        rw [h2]
        simp
        omega
    obtain ⟨ob3, step⟩ := ih n rest (r.take 90 ++ List.replicate (90 - w) 0)
      (ql_raster (90 % 256) (r.take 90 ++ List.replicate (90 - w) 0) fout) hw2 hlen hdrop2
    refine ⟨ob3, ?_⟩
    have e : (r :: rows).length + n = (rows.length + n) + 1 := by simp; omega
    rw [e]
    simp only [List.map_cons, List.cons_append, handle_page_rows, cupsRasterReadPixels,
      Bool.not_true, Bool.false_eq_true, if_false, hob2]
    rw [step]
    have : (r.take 90 ++ List.replicate (90 - w) 0).take 90 =
        r.take 90 ++ List.replicate (90 - w) 0 := List.take_of_length_le (by omega)
    simp [ql_raster, fwrite, row_frame, this]

theorem handle_page_rows_frames (n : Nat) :
    ∀ (w : Nat) (ob fout : List Nat) (raster : List RasterRead),
      ∃ frames : List (List Nat),
        (∀ f ∈ frames, ∃ payload : List Nat,
          payload.length ≤ 90 ∧ f = [0x67, 0x00, 90] ++ payload) ∧
        (handle_page_rows n w 90 ob fout raster).1 = fout ++ frames.flatten := by
  induction n with
  | zero => intro w ob fout raster; exact ⟨[], by simp, by simp [handle_page_rows]⟩
  | succ n ih =>
    intro w ob fout raster
    rcases raster with _ | ⟨o, rest⟩
    · exact ⟨[], by simp, by simp [handle_page_rows_nil]⟩
    · cases o with
      | none => exact ⟨[], by simp, by simp [handle_page_rows_none]⟩
      | some r =>
        obtain ⟨frames, hf, e⟩ := ih w (if w < 90 then memcpy ob r w else memcpy ob r 90)
          (ql_raster (90 % 256) (if w < 90 then memcpy ob r w else memcpy ob r 90) fout) rest
        refine ⟨([0x67, 0x00, 90] ++
          (if w < 90 then memcpy ob r w else memcpy ob r 90).take 90) :: frames, ?_, ?_⟩
        · intro f hfm
          rcases List.mem_cons.mp hfm with h | h
          · exact ⟨_, by simp, h⟩
          · exact hf f h
        · simp only [handle_page_rows, cupsRasterReadPixels, Bool.not_true, Bool.false_eq_true,
            if_false, e]
          simp [ql_raster, fwrite]

theorem row_frame_shape (w : Nat) (r : List Nat) (hr : r.length = w) :
    (row_frame w r).length = 93 ∧
    (row_frame w r).take 3 = [0x67, 0x00, 90] ∧
    ((row_frame w r).drop 3).length = 90 ∧
    (90 ≤ w → row_frame w r = [0x67, 0x00, 90] ++ r.take 90) ∧
    (w < 90 → row_frame w r = [0x67, 0x00, 90] ++ (r ++ List.replicate (90 - w) 0)) := by
  refine ⟨?_, ?_, ?_, ?_, ?_⟩
  · simp [row_frame]; omega
  · simp [row_frame]
  · simp [row_frame]; omega
  · intro h
    have h2 : 90 - w = 0 := by omega
    simp [row_frame, h2]
  · intro h
    have : r.take 90 = r := List.take_of_length_le (by omega)
    simp [row_frame, this]

/-! ## Polling and initialisation attempts -/

/-- C11: for every back-channel script, `wait_for_page_end` consumes at most
25 read outcomes; when the next 25 outcomes are all non-terminal (short read,
wrong first byte, or a status that `handle_status` does not classify as
terminal) it consumes exactly these 25, printing the lines of each, and stops
without a terminal event; when fewer than 25 non-terminal outcomes are
followed by a terminal one, it stops right after that one and leaves the rest
of the script unread. -/
theorem wait_for_page_end_attempts (w : World) (pre rest : List BackChannelRead)
    (hpre : ∀ o ∈ pre, poll_terminal o = false) :
    (∃ k, k ≤ 25 ∧ (wait_for_page_end w).backchannel = w.backchannel.drop k) ∧
    (pre.length = 25 →
      wait_for_page_end { w with backchannel := pre ++ rest } =
        { w with backchannel := rest, stderr := w.stderr ++ (pre.map poll_lines).flatten }) ∧
    (∀ t, pre.length < 25 → poll_terminal t = true →
      wait_for_page_end { w with backchannel := pre ++ t :: rest } =
        { w with backchannel := rest,
                 stderr := w.stderr ++ (pre.map poll_lines).flatten ++ poll_lines t }) := by
  refine ⟨wait_for_page_end_loop_consumes 25 _ w, ?_, ?_⟩
  · intro hlen
    have h := wait_for_page_end_loop_skip pre 0 ql_status.zero w rest hpre
    rw [Nat.add_zero, hlen] at h
    rw [wait_for_page_end, h]
    rfl
  · intro t hlen ht
    obtain ⟨m, hm⟩ : ∃ m, 25 = pre.length + (m + 1) := ⟨24 - pre.length, by omega⟩
    have h := wait_for_page_end_loop_skip pre (m + 1) ql_status.zero w (t :: rest) hpre
    rw [← hm] at h
    rw [wait_for_page_end, h, wait_for_page_end_loop]
    obtain ⟨h1, h2⟩ := wait_for_page_end_round_cons ql_status.zero
      { w with backchannel := t :: rest,
               stderr := w.stderr ++ (pre.map poll_lines).flatten } t rest rfl
    simp only [h1, ht, if_true, h2]

/-- C11, witness: 24 Phase-change/Printing frames followed by a
Phase-change/Waiting frame stop on the 25th attempt with "INFO: Ready.", and
25 Printing frames leave the loop after 25 attempts with no terminal line. -/
theorem wait_for_page_end_attempts_witness :
    (List.replicate 24 (BackChannelRead.data status_printing.toBytes)).length < 25 ∧
    poll_terminal (BackChannelRead.data status_waiting.toBytes) = true ∧
    wait_for_page_end { world_empty with
        backchannel := List.replicate 24 (BackChannelRead.data status_printing.toBytes) ++
          BackChannelRead.data status_waiting.toBytes :: [] } =
      { world_empty with
        backchannel := [],
        stderr := List.replicate 24 "INFO: Printing...\n" ++ ["INFO: Ready.\n"] } ∧
    wait_for_page_end { world_empty with
        backchannel := List.replicate 25 (BackChannelRead.data status_printing.toBytes) ++ [] } =
      { world_empty with
        backchannel := [],
        stderr := List.replicate 25 "INFO: Printing...\n" } :=
  ⟨by decide, by decide,
    ((wait_for_page_end_attempts world_empty
      (List.replicate 24 (BackChannelRead.data status_printing.toBytes)) [] (by decide)).2.2
      (BackChannelRead.data status_waiting.toBytes) (by decide) (by decide)).trans (by decide),
    ((wait_for_page_end_attempts world_empty
      (List.replicate 25 (BackChannelRead.data status_printing.toBytes)) [] (by decide)).2.1
      (by decide)).trans (by decide)⟩

/-- C12: for every back-channel script, `init` returns true if and only if
one of the first 10 outcomes is a full 32-byte frame whose `print_head_mark`
is 0x80; it stops at the first such outcome, handing back that status and
leaving the rest of the script unread; when the first 10 outcomes are all
short or invalid it makes exactly 10 attempts and returns false. -/
theorem init_attempts (status : ql_status) (device : List Nat)
    (pre rest : List BackChannelRead)
    (hpre : ∀ o ∈ pre, init_valid o = false) :
    (∀ bc : List BackChannelRead,
      (init status device bc).1 = true ↔ ∃ o ∈ bc.take 10, init_valid o = true) ∧
    (pre.length = 10 →
      (init status device (pre ++ rest)).1 = false ∧
      (init status device (pre ++ rest)).2.2.2 = rest ∧
      ∃ flags : List Bool, flags.length = 10 ∧
        (init status device (pre ++ rest)).2.2.1 =
          device ++ (flags.map init_attempt).flatten) ∧
    (∀ t, pre.length < 10 → init_valid t = true →
      (init status device (pre ++ t :: rest)).1 = true ∧
      (init status device (pre ++ t :: rest)).2.1 = read_status t ∧
      (init status device (pre ++ t :: rest)).2.2.2 = rest ∧
      ∃ flags : List Bool, flags.length = pre.length + 1 ∧
        (init status device (pre ++ t :: rest)).2.2.1 =
          device ++ (flags.map init_attempt).flatten) := by
  refine ⟨?_, ?_, ?_⟩
  · intro bc
    rw [init, init_loop_result]
    simp [List.any_eq_true]
  · intro hlen
    obtain ⟨f2, s2, flags, hl, e⟩ := init_loop_skip pre 0 false status device rest hpre
    rw [Nat.add_zero, hlen] at e
    rw [init, e]
    exact ⟨rfl, rfl, flags, by omega, rfl⟩
  · intro t hlen ht
    obtain ⟨m, hm⟩ : ∃ m, 10 = pre.length + (m + 1) := ⟨9 - pre.length, by omega⟩
    obtain ⟨f2, s2, flags, hl, e⟩ :=
      init_loop_skip pre (m + 1) false status device (t :: rest) hpre
    rw [← hm] at e
    rw [init, e, (init_loop_step m f2 s2 _ t rest).1 ht]
    exact ⟨rfl, rfl, rfl, flags ++ [f2], by simp [hl], by simp⟩

/-- C12, witness: nine short reads followed by a valid frame succeed on the
tenth attempt; ten short reads fail. -/
theorem init_attempts_witness :
    (List.replicate 9 (BackChannelRead.data [])).length < 10 ∧
    init_valid (BackChannelRead.data status_valid.toBytes) = true ∧
    (init ql_status.zero [] (List.replicate 9 (BackChannelRead.data []) ++
      BackChannelRead.data status_valid.toBytes :: [])).1 = true ∧
    (init ql_status.zero [] (List.replicate 9 (BackChannelRead.data []) ++
      BackChannelRead.data status_valid.toBytes :: [])).2.2.2 = [] ∧
    (List.replicate 10 (BackChannelRead.data [])).length = 10 ∧
    (init ql_status.zero [] (List.replicate 10 (BackChannelRead.data []) ++ [])).1 = false :=
  ⟨by decide, by decide,
    ((init_attempts ql_status.zero [] (List.replicate 9 (BackChannelRead.data [])) []
      (by decide)).2.2 (BackChannelRead.data status_valid.toBytes) (by decide) (by decide)).1,
    ((init_attempts ql_status.zero [] (List.replicate 9 (BackChannelRead.data [])) []
      (by decide)).2.2 (BackChannelRead.data status_valid.toBytes) (by decide)
      (by decide)).2.2.1,
    by decide,
    ((init_attempts ql_status.zero [] (List.replicate 10 (BackChannelRead.data [])) []
      (by decide)).2.1 (by decide)).1⟩

/-- C20: `backchannel_read_status` returns true if and only if the value of
`cupsBackChannelRead` is 32, that is the back-channel delivered a full frame;
an error, a timeout and a shorter delivery give false; the first byte is not
inspected: every 32-byte frame, whatever its `print_head_mark`, is a
successful read that leaves the frame in the status object. -/
theorem backchannel_read_status_iff (status : ql_status) (bc : List BackChannelRead) :
    ((backchannel_read_status status bc).1 = true ↔
      (cupsBackChannelRead status 32 bc).1 = 32) ∧
    ((backchannel_read_status status bc).1 = true ↔
      ∃ d rest, bc = BackChannelRead.data d :: rest ∧ 32 ≤ d.length) ∧
    (∀ rest, (backchannel_read_status status (BackChannelRead.error :: rest)).1 = false) ∧
    (backchannel_read_status status []).1 = false ∧
    (∀ (s : ql_status) rest,
      backchannel_read_status status (BackChannelRead.data s.toBytes :: rest) =
        (true, s, rest)) := by
  refine ⟨?_, ?_, ?_, ?_, ?_⟩
  · simp only [backchannel_read_status, sizeof_ql_status]
    split <;> simp_all
  · cases bc with
    | nil => simp [backchannel_read_status_nil]
    | cons o rest =>
      rw [(backchannel_read_status_cons status o rest).1]
      cases o with
      | error => simp [read_full]
      | data d => simp [read_full]
  · intro rest
    rw [(backchannel_read_status_cons status _ rest).1]
    rfl
  · rw [backchannel_read_status_nil]
  · intro s rest
    exact backchannel_read_status_full status s rest

/-! ## Command encodings -/

/-- C13: for every length and every data buffer of exactly that length,
`ql_raster` writes exactly 3 + length bytes: the header 0x67, 0x00, length
followed by the data bytes unchanged and in order. -/
theorem ql_raster_bytes (length : Nat) (data device : List Nat)
    (hlen : data.length = length) :
    ql_raster length data device = device ++ [0x67, 0x00, length] ++ data ∧
    (ql_raster length data device).length = device.length + (3 + length) := by
  have h : data.take (length * 1) = data := List.take_of_length_le (by omega)
  simp [ql_raster, fwrite, h, hlen]
  omega

/-- C13, witness: the statement at a buffer of three bytes. -/
theorem ql_raster_bytes_witness :
    [7, 8, 9].length = 3 ∧
    ql_raster 3 [7, 8, 9] [1] = [1] ++ [0x67, 0x00, 3] ++ [7, 8, 9] ∧
    (ql_raster 3 [7, 8, 9] [1]).length = [1].length + (3 + 3) :=
  ⟨by decide, ql_raster_bytes 3 [7, 8, 9] [1] (by decide)⟩

/-- C14: for every length, `ql_raster_end` writes exactly 3 + length bytes:
the header 0x67, 0xFF, length followed by length bytes that are all 0x00. -/
theorem ql_raster_end_bytes (length : Nat) (device : List Nat) :
    ql_raster_end length device = device ++ [0x67, 0xFF, length] ++ List.replicate length 0 ∧
    (ql_raster_end length device).length = device.length + (3 + length) ∧
    ∀ b ∈ (ql_raster_end length device).drop (device.length + 3), b = 0 := by
  have h : (List.replicate length 0).take (length * 1) = List.replicate length 0 :=
    List.take_of_length_le (by simp)
  have e : ql_raster_end length device =
      device ++ [0x67, 0xFF, length] ++ List.replicate length 0 := by
    simp [ql_raster_end, fwrite, zero_buffer, h]
  refine ⟨e, ?_, ?_⟩
  · rw [e]; simp; omega
  · rw [e]
    intro b hb
    have : (device ++ [0x67, 0xFF, length] ++ List.replicate length 0).drop
        (device.length + 3) = List.replicate length 0 := by
      rw [List.drop_append_of_le_length (by simp)]
      simp
    rw [this] at hb
    exact (List.mem_replicate.mp hb).2

/-- C15: `ql_init` with `flush = true` writes exactly 202 bytes, 200 bytes of
0x00 followed by the initialise command 0x1B 0x40; with `flush = false` it
writes exactly the 2 bytes 0x1B 0x40. -/
theorem ql_init_bytes (flush : Bool) (device : List Nat) :
    ql_init true device = device ++ List.replicate 200 0 ++ [0x1B, 0x40] ∧
    (ql_init true device).length = device.length + 202 ∧
    ql_init false device = device ++ [0x1B, 0x40] ∧
    (ql_init false device).length = device.length + 2 ∧
    ql_init flush device =
      device ++ (if flush then List.replicate 200 0 else []) ++ [0x1B, 0x40] := by
  have e1 : ql_init true device = device ++ List.replicate 200 0 ++ [0x1B, 0x40] := by
    rw [ql_init_append]
    simp only [if_true]
  have e2 : ql_init false device = device ++ [0x1B, 0x40] := rfl
  refine ⟨e1, ?_, e2, ?_, ql_init_append flush device⟩
  · rw [e1, List.length_append, List.length_append, List.length_replicate]
    rfl
  · rw [e2, List.length_append]
    rfl

/-- C16: for all four combinations of `cut_at_end` and `high_resolution`,
`ql_set_extended_options` writes exactly the 4 bytes 0x1B 0x69 0x4B opt, where
opt is the bitwise OR of 0x08 (iff `cut_at_end`) and 0x40 (iff
`high_resolution`): 0x00, 0x08, 0x40 or 0x48. -/
theorem ql_set_extended_options_bytes (cut_at_end high_resolution : Bool) (device : List Nat) :
    ql_set_extended_options cut_at_end high_resolution device =
      device ++ [0x1B, 0x69, 0x4B,
        (if cut_at_end then 0x08 else 0x00) ||| (if high_resolution then 0x40 else 0x00)] ∧
    (ql_set_extended_options cut_at_end high_resolution device).length = device.length + 4 ∧
    ql_set_extended_options false false device = device ++ [0x1B, 0x69, 0x4B, 0x00] ∧
    ql_set_extended_options true false device = device ++ [0x1B, 0x69, 0x4B, 0x08] ∧
    ql_set_extended_options false true device = device ++ [0x1B, 0x69, 0x4B, 0x40] ∧
    ql_set_extended_options true true device = device ++ [0x1B, 0x69, 0x4B, 0x48] := by
  refine ⟨?_, ?_, rfl, rfl, rfl, rfl⟩
  · cases cut_at_end <;> cases high_resolution <;> rfl
  · cases cut_at_end <;> cases high_resolution <;>
      simp [ql_set_extended_options, fwrite]

/-- C17: for every 16-bit margins value m, `ql_set_margins` writes exactly the
5 bytes 0x1B 0x69 0x64 lo hi with lo = m mod 256 and hi = m div 256, both
bytes, so that lo + 256 * hi = m. -/
theorem ql_set_margins_bytes (m : Nat) (device : List Nat) (hm : m < 65536) :
    ql_set_margins m device = device ++ [0x1B, 0x69, 0x64, m % 256, m / 256] ∧
    (ql_set_margins m device).length = device.length + 5 ∧
    m % 256 < 256 ∧ m / 256 < 256 ∧
    m % 256 + 256 * (m / 256) = m := by
  have hhi : m / 256 % 256 = m / 256 := Nat.mod_eq_of_lt (by omega)
  have e : ql_set_margins m device = device ++ [0x1B, 0x69, 0x64, m % 256, m / 256] := by
    simp only [ql_set_margins, fwrite, low_byte, high_byte, hhi]
    simp
  refine ⟨e, ?_, by omega, by omega, by omega⟩
  rw [e]; simp

/-- C17, witness: the statement at m = 0x1234. -/
theorem ql_set_margins_bytes_witness :
    4660 < 65536 ∧
    ql_set_margins 4660 [] = [0x1B, 0x69, 0x64, 0x34, 0x12] ∧
    0x34 + 256 * 0x12 = 4660 :=
  ⟨by decide, (ql_set_margins_bytes 4660 [] (by decide)).1, by decide⟩

/-! ## Row frames and extended options of a page -/

/-- C18: for every page and every pixel row that `handle_page` reads (the
rows of `cupsBytesPerLine` bytes delivered before the height is reached, the
raster stream ends or a read returns 0), the frame written for the row is the
header 0x67, 0x00, 90 followed by exactly 90 payload bytes: the first 90 bytes
of the row when `cupsBytesPerLine >= 90`, the row followed by
`90 - cupsBytesPerLine` zero bytes otherwise; the frames of all rows are
written in order between the leading and the trailing blank frames. -/
theorem handle_page_row_frames (header : cups_page_header2_t) (status : ql_status)
    (page_counter : Nat) (w : World) (rows : List (List Nat)) (rest : List RasterRead)
    (hraster : w.raster = rows.map some ++ rest)
    (hwidth : ∀ r ∈ rows, r.length = header.cupsBytesPerLine)
    (hle : rows.length ≤ header.cupsHeight)
    (hstop : rows.length = header.cupsHeight ∨ rest = [] ∨ ∃ rest2, rest = none :: rest2) :
    (handle_page header status page_counter w).fout =
      w.fout ++ page_head header page_counter
        ++ (List.replicate (leading_blank_lines header) blank_frame).flatten
        ++ (rows.map (row_frame header.cupsBytesPerLine)).flatten
        ++ (List.replicate (trailing_blank_lines header) blank_frame).flatten
        ++ ([0x67, 0xFF, 90] ++ List.replicate 90 0) ++ [0x0C] ∧
    ∀ r ∈ rows,
      (row_frame header.cupsBytesPerLine r).length = 93 ∧
      (row_frame header.cupsBytesPerLine r).take 3 = [0x67, 0x00, 90] ∧
      ((row_frame header.cupsBytesPerLine r).drop 3).length = 90 ∧
      (90 ≤ header.cupsBytesPerLine →
        row_frame header.cupsBytesPerLine r = [0x67, 0x00, 90] ++ r.take 90) ∧
      (header.cupsBytesPerLine < 90 →
        row_frame header.cupsBytesPerLine r =
          [0x67, 0x00, 90] ++ (r ++ List.replicate (90 - header.cupsBytesPerLine) 0)) := by
  refine ⟨?_, fun r hr => row_frame_shape _ r (hwidth r hr)⟩
  obtain ⟨m, hm⟩ : ∃ m, header.cupsHeight = rows.length + m :=
    ⟨header.cupsHeight - rows.length, by omega⟩
  obtain ⟨ob2, e⟩ := handle_page_rows_read header.cupsBytesPerLine rows m rest (zero_buffer 90)
    (w.fout ++ page_head header page_counter ++
      (List.replicate (leading_blank_lines header) blank_frame).flatten)
    hwidth (by simp [zero_buffer]) (by unfold zero_buffer; rw [List.drop_replicate])
  rw [handle_page_fout_eq, hraster, hm, e]
  have hrest : (handle_page_rows m header.cupsBytesPerLine 90 ob2
      (w.fout ++ page_head header page_counter ++
        (List.replicate (leading_blank_lines header) blank_frame).flatten ++
        (rows.map (row_frame header.cupsBytesPerLine)).flatten) rest).1 =
      w.fout ++ page_head header page_counter ++
        (List.replicate (leading_blank_lines header) blank_frame).flatten ++
        (rows.map (row_frame header.cupsBytesPerLine)).flatten := by
    rcases hstop with h | h | ⟨rest2, h⟩
    · have : m = 0 := by omega
      rw [this, handle_page_rows_zero]
    · rw [h, handle_page_rows_nil]
    · rw [h, handle_page_rows_none]
  rw [hrest]

/-- C18, witness: the statement at a page of three rows of two bytes. -/
theorem handle_page_row_frames_witness :
    world_three_lines.raster = rows_three_lines.map some ++ [] ∧
    rows_three_lines.length ≤ header_three_lines.cupsHeight ∧
    row_frame header_three_lines.cupsBytesPerLine [1, 2] =
      [0x67, 0x00, 90] ++ ([1, 2] ++ List.replicate (90 - header_three_lines.cupsBytesPerLine) 0) ∧
    (handle_page header_three_lines ql_status.zero 0 world_three_lines).fout =
      world_three_lines.fout ++ page_head header_three_lines 0
        ++ (List.replicate (leading_blank_lines header_three_lines) blank_frame).flatten
        ++ (rows_three_lines.map (row_frame header_three_lines.cupsBytesPerLine)).flatten
        ++ (List.replicate (trailing_blank_lines header_three_lines) blank_frame).flatten
        ++ ([0x67, 0xFF, 90] ++ List.replicate 90 0) ++ [0x0C] :=
  ⟨by decide, by decide,
    ((handle_page_row_frames header_three_lines ql_status.zero 0 world_three_lines
      rows_three_lines [] (by decide) (by decide) (by decide) (Or.inl (by decide))).2
      [1, 2] (by decide)).2.2.2.2 (by decide),
    (handle_page_row_frames header_three_lines ql_status.zero 0 world_three_lines
      rows_three_lines [] (by decide) (by decide) (by decide) (Or.inl (by decide))).1⟩

/-- C19: for every page header, the stream `handle_page` writes consists of
the page-start command, then one extended-options command 0x1B 0x69 0x4B opt
with opt = 0x48 when `HWResolution[1]` is 600 and opt = 0x08 for every other
value, then only raster line frames (header 0x67, 0x00, 90), the raster-end
frame and the page-end byte. -/
theorem handle_page_extended_options (header : cups_page_header2_t) (status : ql_status)
    (page_counter : Nat) (w : World) :
    ∃ frames : List (List Nat),
      (∀ f ∈ frames, ∃ payload : List Nat,
        payload.length ≤ 90 ∧ f = [0x67, 0x00, 90] ++ payload) ∧
      (handle_page header status page_counter w).fout =
        w.fout ++ ([0x1B, 0x69, 0x7A] ++ (handle_page_print_info header page_counter).toBytes)
          ++ [0x1B, 0x69, 0x4B, if header.HWResolution.2 = 600 then 0x48 else 0x08]
          ++ frames.flatten ++ ([0x67, 0xFF, 90] ++ List.replicate 90 0) ++ [0x0C] := by
  obtain ⟨frames, hf, e⟩ := handle_page_rows_frames header.cupsHeight header.cupsBytesPerLine
    (zero_buffer 90)
    (w.fout ++ page_head header page_counter ++
      (List.replicate (leading_blank_lines header) blank_frame).flatten) w.raster
  have hblank : ∀ f ∈ List.replicate (leading_blank_lines header) blank_frame ++ frames ++
      List.replicate (trailing_blank_lines header) blank_frame,
      ∃ payload : List Nat, payload.length ≤ 90 ∧ f = [0x67, 0x00, 90] ++ payload := by
    intro f hfm
    simp only [List.mem_append, List.mem_replicate] at hfm
    rcases hfm with (⟨_, h⟩ | h) | ⟨_, h⟩
    · exact ⟨List.replicate 90 0, by simp, by rw [h]; rfl⟩
    · exact hf f h
    · exact ⟨List.replicate 90 0, by simp, by rw [h]; rfl⟩
  refine ⟨_, hblank, ?_⟩
  rw [handle_page_fout_eq, e]
  simp only [page_head, List.flatten_append, List.append_assoc]

/-! ## Lemmas on decoding, flush flags and frame counting -/

theorem ql_status.toBytes_ofBytes (b : List Nat) (hb : b.length = 32) :
    (ql_status.ofBytes b).toBytes = b := by
  apply List.ext_getElem
  · rw [ql_status.toBytes_length, hb]
  · intro i h1 h2
    rw [ql_status.toBytes_length] at h1
    simp only [ql_status.toBytes, ql_status.ofBytes]
    interval_cases i <;> simp [List.getD_eq_getElem?_getD, List.getElem?_eq_getElem, hb]

theorem status_decode_positional (status : ql_status) (b : List Nat)
    (rest : List BackChannelRead) (hb : b.length = 32) :
    backchannel_read_status status (BackChannelRead.data b :: rest) =
      (true, ql_status.ofBytes b, rest) := by
  have h1 : b.take 32 = b := List.take_of_length_le (by omega)
  simp [backchannel_read_status, cupsBackChannelRead, sizeof_ql_status, h1,
    ql_status.store_full, hb]

theorem init_flush_zero (bc : List BackChannelRead) : init_flush bc 0 = false := by
  simp [init_flush]

theorem init_flush_succ (o : BackChannelRead) (bc : List BackChannelRead) (k : Nat) :
    init_flush (o :: bc) (k + 1) = (read_invalid o || init_flush bc k) := by
  simp [init_flush]

theorem init_loop_step_flush (n : Nat) (flush : Bool) (status : ql_status) (device : List Nat)
    (o : BackChannelRead) (rest : List BackChannelRead) (hv : init_valid o = false) :
    ∃ status2,
      init_loop (n + 1) flush status device (o :: rest) =
        init_loop n (flush || read_invalid o) status2 (device ++ init_attempt flush) rest := by
  obtain ⟨h1, h2, h3⟩ := backchannel_read_status_cons status o rest
  have hd := init_attempt_device flush device
  by_cases hf : read_full o = true
  · have h3 := h3 hf
    have hm : ¬ (read_status o).print_head_mark = 0x80 := by
      intro hm
      simp [init_valid, hf, hm] at hv
    refine ⟨read_status o, ?_⟩
    simp [init_loop, request_status, h1, h2, h3, hf, hm, hd, read_invalid]
  · simp at hf
    refine ⟨(backchannel_read_status status (o :: rest)).2.1, ?_⟩
    simp [init_loop, request_status, h1, h2, hf, hd, read_invalid]

theorem init_loop_skip_flush (pre : List BackChannelRead) :
    ∀ (n : Nat) (flush : Bool) (status : ql_status) (device : List Nat)
      (rest : List BackChannelRead),
      (∀ o ∈ pre, init_valid o = false) →
      ∃ status2 : ql_status,
        init_loop (pre.length + n) flush status device (pre ++ rest) =
          init_loop n (flush || pre.any read_invalid) status2
            (device ++ ((List.range pre.length).map
              (fun k => init_attempt (flush || init_flush pre k))).flatten) rest := by
  induction pre with
  | nil =>
    intro n flush status device rest _
    exact ⟨status, by simp⟩
  | cons o pre ih =>
    intro n flush status device rest hpre
    have ho : init_valid o = false := hpre o (by simp)
    have hpre2 : ∀ x ∈ pre, init_valid x = false := fun x hx => hpre x (by simp [hx])
    obtain ⟨s1, e1⟩ := init_loop_step_flush (pre.length + n) flush status device o
      (pre ++ rest) ho
    obtain ⟨s2, e2⟩ := ih n (flush || read_invalid o) s1 (device ++ init_attempt flush) rest hpre2
    refine ⟨s2, ?_⟩
    have e : (o :: pre).length + n = (pre.length + n) + 1 := by simp; omega
    rw [e, List.cons_append, e1, e2]
    simp only [List.length_cons, List.range_succ_eq_map, List.map_cons, List.flatten_cons,
      List.map_map, List.any_cons, Bool.or_assoc, List.append_assoc]
    simp only [Function.comp_def, Nat.succ_eq_add_one, init_flush_zero, init_flush_succ,
      Bool.or_false]


theorem init_flush_iff (bc : List BackChannelRead) (k : Nat) :
    init_flush bc k = true ↔
      ∃ j, j < k ∧ ∃ o, bc[j]? = some o ∧ read_full o = true ∧
        (read_status o).print_head_mark ≠ 0x80 := by
  simp only [init_flush, List.any_eq_true, List.mem_iff_getElem?, read_invalid,
    Bool.and_eq_true, decide_eq_true_eq]
  constructor
  · rintro ⟨o, ⟨j, hj⟩, hf, hm⟩
    have hjk : j < k := by
      by_contra hge
      rw [List.getElem?_take] at hj
      simp [hge] at hj
    rw [List.getElem?_take_of_lt hjk] at hj
    exact ⟨j, hjk, o, hj, hf, hm⟩
  · rintro ⟨j, hjk, o, hj, hf, hm⟩
    exact ⟨o, ⟨j, by rw [List.getElem?_take_of_lt hjk]; exact hj⟩, hf, hm⟩

theorem init_flush_append (pre rest : List BackChannelRead) (k : Nat) (hk : k ≤ pre.length) :
    init_flush (pre ++ rest) k = init_flush pre k := by
  simp only [init_flush, List.take_append_of_le_length hk]

theorem init_flush_short (bc : List BackChannelRead) (k : Nat)
    (h : ∀ o ∈ bc, read_full o = false) : init_flush bc k = false := by
  simp only [init_flush, List.any_eq_false]
  intro o ho
  have := h o (List.mem_of_mem_take ho)
  simp [read_invalid, this]

theorem init_device_flags (status : ql_status) (device : List Nat)
    (pre rest : List BackChannelRead) (hpre : ∀ o ∈ pre, init_valid o = false) :
    (pre.length = 10 →
      (init status device (pre ++ rest)).2.2.1 =
        device ++ ((List.range 10).map
          (fun k => init_attempt (init_flush (pre ++ rest) k))).flatten) ∧
    (∀ t, pre.length < 10 → init_valid t = true →
      (init status device (pre ++ t :: rest)).2.2.1 =
        device ++ ((List.range (pre.length + 1)).map
          (fun k => init_attempt (init_flush (pre ++ t :: rest) k))).flatten) := by
  have hmap : ∀ (x : List BackChannelRead) (m : Nat), m ≤ pre.length + 1 →
      (List.range m).map (fun k => init_attempt (init_flush (pre ++ x) k)) =
      (List.range m).map (fun k => init_attempt (false || init_flush pre k)) := by
    intro x m hm
    apply List.map_congr_left
    intro k hk
    have : k ≤ pre.length := by
      have := List.mem_range.mp hk
      omega
    rw [init_flush_append pre x k this, Bool.false_or]
  refine ⟨?_, ?_⟩
  · intro hlen
    obtain ⟨s2, e⟩ := init_loop_skip_flush pre 0 false status device rest hpre
    rw [Nat.add_zero, hlen] at e
    rw [init, e, hmap rest 10 (by omega)]
    rfl
  · intro t hlen ht
    obtain ⟨m, hm⟩ : ∃ m, 10 = pre.length + (m + 1) := ⟨9 - pre.length, by omega⟩
    obtain ⟨s2, e⟩ := init_loop_skip_flush pre (m + 1) false status device (t :: rest) hpre
    rw [← hm] at e
    rw [init, e, (init_loop_step m _ s2 _ t rest).1 ht, hmap (t :: rest) _ (le_refl _)]
    simp only [List.range_succ, List.map_append, List.map_cons, List.map_nil,
      List.flatten_append, List.flatten_cons, List.flatten_nil, List.append_nil,
      List.append_assoc]
    congr 3
    simp [init_flush]

theorem handle_page_fout_rows (header : cups_page_header2_t) (status : ql_status)
    (page_counter : Nat) (w : World) (rows : List (List Nat)) (rest : List RasterRead)
    (hraster : w.raster = rows.map some ++ rest)
    (hwidth : ∀ r ∈ rows, r.length = header.cupsBytesPerLine)
    (hle : rows.length ≤ header.cupsHeight)
    (hstop : rows.length = header.cupsHeight ∨ rest = [] ∨ ∃ rest2, rest = none :: rest2) :
    (handle_page header status page_counter w).fout =
      w.fout ++ page_head header page_counter ++ (page_frames header rows).flatten
        ++ ([0x67, 0xFF, 90] ++ List.replicate 90 0) ++ [0x0C] := by
  obtain ⟨m, hm⟩ : ∃ m, header.cupsHeight = rows.length + m :=
    ⟨header.cupsHeight - rows.length, by omega⟩
  obtain ⟨ob2, e⟩ := handle_page_rows_read header.cupsBytesPerLine rows m rest (zero_buffer 90)
    (w.fout ++ page_head header page_counter ++
      (List.replicate (leading_blank_lines header) blank_frame).flatten)
    hwidth (by simp [zero_buffer]) (by unfold zero_buffer; rw [List.drop_replicate])
  rw [handle_page_fout_eq, hraster, hm, e]
  have hrest : (handle_page_rows m header.cupsBytesPerLine 90 ob2
      (w.fout ++ page_head header page_counter ++
        (List.replicate (leading_blank_lines header) blank_frame).flatten ++
        (rows.map (row_frame header.cupsBytesPerLine)).flatten) rest).1 =
      w.fout ++ page_head header page_counter ++
        (List.replicate (leading_blank_lines header) blank_frame).flatten ++
        (rows.map (row_frame header.cupsBytesPerLine)).flatten := by
    rcases hstop with h | h | ⟨rest2, h⟩
    · have : m = 0 := by omega
      rw [this, handle_page_rows_zero]
    · rw [h, handle_page_rows_nil]
    · rw [h, handle_page_rows_none]
  rw [hrest]
  simp only [page_frames, List.flatten_append, List.append_assoc]

theorem blank_lines_total (header : cups_page_header2_t) (hh : header.cupsHeight < 65536) :
    leading_blank_lines header + header.cupsHeight + trailing_blank_lines header =
      max header.cupsHeight 150 := by
  by_cases hs : header.cupsHeight < 150
  · have hb := handle_page_blanks_short header hs
    have hpos : handle_page_blanks header > 0 := by rw [hb]; omega
    simp only [leading_blank_lines, trailing_blank_lines, hpos, if_true]
    rw [hb, to_uint32_half _ (by omega), to_uint32_half_up _ (by omega)]
    omega
  · have hnp : ¬ handle_page_blanks header > 0 := by
      intro hp
      have := (handle_page_blanks_pos_iff header (by omega)).mp hp
      omega
    simp only [leading_blank_lines, trailing_blank_lines, hnp, if_false]
    omega

theorem page_frames_length (header : cups_page_header2_t) (rows : List (List Nat)) :
    (page_frames header rows).length =
      leading_blank_lines header + rows.length + trailing_blank_lines header := by
  simp [page_frames]
  omega

theorem page_frames_shape (header : cups_page_header2_t) (rows : List (List Nat))
    (hwidth : ∀ r ∈ rows, r.length = header.cupsBytesPerLine) :
    ∀ f ∈ page_frames header rows,
      ∃ payload : List Nat, payload.length = 90 ∧ f = [0x67, 0x00, 90] ++ payload := by
  intro f hf
  simp only [page_frames, List.mem_append, List.mem_replicate, List.mem_map] at hf
  rcases hf with (⟨_, h⟩ | ⟨r, hr, h⟩) | ⟨_, h⟩
  · exact ⟨List.replicate 90 0, by simp, by rw [h]; rfl⟩
  · refine ⟨r.take 90 ++ List.replicate (90 - header.cupsBytesPerLine) 0, ?_, by rw [← h]; rfl⟩
    have := hwidth r hr
    simp
    omega
  · exact ⟨List.replicate 90 0, by simp, by rw [h]; rfl⟩

theorem count_raster_frames_aux_step (k : Nat) (p x : List Nat) (hp : p.length = 90) :
    count_raster_frames_aux (k + 1) ([0x67, 0x00, 90] ++ p ++ x) =
      1 + count_raster_frames_aux k x := by
  have hdrop : (p ++ x).drop 90 = x := by
    rw [List.drop_append_of_le_length (by omega), List.drop_of_length_le (by omega)]
    rfl
  have hcond : 3 ≤ ([0x67, 0x00, 90] ++ p ++ x).length ∧
      ([0x67, 0x00, 90] ++ p ++ x).getD 0 0 = 0x67 ∧
      ([0x67, 0x00, 90] ++ p ++ x).getD 1 0 = 0x00 := by
    refine ⟨?_, rfl, rfl⟩
    simp
  rw [count_raster_frames_aux, if_pos hcond]
  have h2 : ([0x67, 0x00, 90] ++ p ++ x).getD 2 0 = 90 := rfl
  have h3 : ([0x67, 0x00, 90] ++ p ++ x).drop (3 + 90) = (p ++ x).drop 90 := by
    simp only [List.append_assoc, List.cons_append, List.nil_append]
    rfl
  rw [h2, h3, hdrop]

theorem count_raster_frames_aux_frames (frames : List (List Nat)) :
    ∀ (n : Nat) (tail : List Nat),
      (∀ f ∈ frames, ∃ payload : List Nat, payload.length = 90 ∧ f = [0x67, 0x00, 90] ++ payload) →
      count_raster_frames_aux (frames.length + n) (frames.flatten ++ tail) =
        frames.length + count_raster_frames_aux n tail := by
  induction frames with
  | nil => intro n tail _; simp
  | cons f frames ih =>
    intro n tail hf
    obtain ⟨p, hp, e⟩ := hf f (by simp)
    have hf2 : ∀ g ∈ frames, ∃ payload : List Nat,
        payload.length = 90 ∧ g = [0x67, 0x00, 90] ++ payload :=
      fun g hg => hf g (by simp [hg])
    have hlen : (f :: frames).length + n = (frames.length + n) + 1 := by simp; omega
    rw [hlen, List.flatten_cons, e, List.append_assoc,
      count_raster_frames_aux_step _ p _ hp, ih n tail hf2, List.length_cons]
    omega

theorem frames_length_le_flatten (frames : List (List Nat))
    (hf : ∀ f ∈ frames, ∃ payload : List Nat,
      payload.length = 90 ∧ f = [0x67, 0x00, 90] ++ payload) :
    frames.length ≤ frames.flatten.length := by
  induction frames with
  | nil => simp
  | cons f frames ih =>
    obtain ⟨p, hp, e⟩ := hf f (by simp)
    have := ih (fun g hg => hf g (by simp [hg]))
    have hfl : f.length = 93 := by rw [e]; simp [hp]
    rw [List.flatten_cons, List.length_append, List.length_cons]
    omega

theorem count_raster_frames_aux_end (n : Nat) (tail : List Nat) :
    count_raster_frames_aux n (0x67 :: 0xFF :: tail) = 0 := by
  cases n <;> simp [count_raster_frames_aux]

theorem count_raster_frames_page (frames : List (List Nat))
    (hf : ∀ f ∈ frames, ∃ payload : List Nat,
      payload.length = 90 ∧ f = [0x67, 0x00, 90] ++ payload) :
    count_raster_frames (frames.flatten ++ ([0x67, 0xFF, 90] ++ List.replicate 90 0) ++ [0x0C]) =
      frames.length := by
  have hlen : ∃ n, (frames.flatten ++ ([0x67, 0xFF, 90] ++ List.replicate 90 0) ++ [0x0C]).length =
      frames.length + n := by
    refine ⟨(frames.flatten ++ ([0x67, 0xFF, 90] ++ List.replicate 90 0) ++ [0x0C]).length -
      frames.length, ?_⟩
    have h1 := frames_length_le_flatten frames hf
    simp only [List.length_append]
    omega
  obtain ⟨n, hn⟩ := hlen
  rw [count_raster_frames, hn, List.append_assoc,
    count_raster_frames_aux_frames frames n _ hf]
  simp only [List.cons_append, List.nil_append]
  rw [count_raster_frames_aux_end]
  rfl

theorem page_head_length (header : cups_page_header2_t) (page_counter : Nat) :
    (page_head header page_counter).length = 17 := by
  simp [page_head, ql_print_info.toBytes]

theorem handle_page_last_byte (header : cups_page_header2_t) (status : ql_status)
    (page_counter : Nat) (w : World) :
    (handle_page header status page_counter w).fout.getLast? = some 0x0C := by
  rw [handle_page_fout_eq]
  simp

theorem init_attempt_bytes :
    init_attempt false = [0x1B, 0x40, 0x1B, 0x69, 0x53] ∧
    init_attempt true = List.replicate 200 0 ++ [0x1B, 0x40, 0x1B, 0x69, 0x53] := by
  constructor
  · rfl
  · simp only [init_attempt, if_true, List.append_assoc, List.cons_append, List.nil_append]

theorem handle_page_print_info_bytes (header : cups_page_header2_t) (page_counter : Nat) :
    (handle_page_print_info header page_counter).toBytes =
      [0x40, 0, 0, 0,
       (handle_page_print_info header page_counter).raster_number_0,
       (handle_page_print_info header page_counter).raster_number_1, 0, 0,
       if page_counter > 0 then 1 else 0, 0] := rfl

/-! ## Status decoding and notifications -/

/-- C21: decoding a status is a positional, lossless mapping: for every
32-byte frame read from the back-channel, the `ql_status` obtained has
`print_head_mark` = byte 0, `size` = byte 1, `printer_id` = byte 4,
`error_info_1` = byte 8, `error_info_2` = byte 9, `media_width` = byte 10,
`media_type` = byte 11, `media_length` = byte 17, `status_type` = byte 18,
`phase_type` = byte 19, `phase_num_h` = byte 20, `phase_num_l` = byte 21,
`notification_type` = byte 22; serialising its members in declaration order
gives back the identical 32 bytes, reserved bytes included; and decoding the
serialisation of any record gives back that record. -/
theorem status_decode_lossless (status : ql_status) (b : List Nat)
    (rest : List BackChannelRead) (hb : b.length = 32) :
    backchannel_read_status status (BackChannelRead.data b :: rest) =
      (true, ql_status.ofBytes b, rest) ∧
    (ql_status.ofBytes b).print_head_mark = b.getD 0 0 ∧
    (ql_status.ofBytes b).size = b.getD 1 0 ∧
    (ql_status.ofBytes b).printer_id = b.getD 4 0 ∧
    (ql_status.ofBytes b).error_info_1 = b.getD 8 0 ∧
    (ql_status.ofBytes b).error_info_2 = b.getD 9 0 ∧
    (ql_status.ofBytes b).media_width = b.getD 10 0 ∧
    (ql_status.ofBytes b).media_type = b.getD 11 0 ∧
    (ql_status.ofBytes b).media_length = b.getD 17 0 ∧
    (ql_status.ofBytes b).status_type = b.getD 18 0 ∧
    (ql_status.ofBytes b).phase_type = b.getD 19 0 ∧
    (ql_status.ofBytes b).phase_num_h = b.getD 20 0 ∧
    (ql_status.ofBytes b).phase_num_l = b.getD 21 0 ∧
    (ql_status.ofBytes b).notification_type = b.getD 22 0 ∧
    (ql_status.ofBytes b).toBytes = b ∧
    (∀ s : ql_status, s.toBytes.length = 32 ∧ ql_status.ofBytes s.toBytes = s ∧
      backchannel_read_status status (BackChannelRead.data s.toBytes :: rest) =
        (true, s, rest)) :=
  ⟨status_decode_positional status b rest hb, rfl, rfl, rfl, rfl, rfl, rfl, rfl, rfl, rfl,
    rfl, rfl, rfl, rfl, ql_status.toBytes_ofBytes b hb,
    fun s => ⟨ql_status.toBytes_length s, ql_status.ofBytes_toBytes s,
      backchannel_read_status_full status s rest⟩⟩

/-- C21, witness: the statement at the frame `frame_example`. -/
theorem status_decode_lossless_witness :
    frame_example.length = 32 ∧
    (backchannel_read_status ql_status.zero (BackChannelRead.data frame_example :: [])).2.1 =
      ql_status.ofBytes frame_example ∧
    (ql_status.ofBytes frame_example).status_type = 0x02 ∧
    (ql_status.ofBytes frame_example).media_length = 0x1D ∧
    (ql_status.ofBytes frame_example).toBytes = frame_example :=
  ⟨by decide,
    congrArg (fun r => r.2.1)
      (status_decode_lossless ql_status.zero frame_example [] (by decide)).1,
    by decide, by decide,
    (status_decode_lossless ql_status.zero frame_example [] (by decide)).2.2.2.2.2.2.2.2.2.2.2.2.2.2.1⟩

/-- C22: for every status with `status_type` Notification (0x05),
`handle_status` returns false and prints "INFO: Cooling started." when
`notification_type` is 0x03, "INFO: Cooling finished." when it is 0x04, and
nothing for any other `notification_type`. -/
theorem handle_status_notification (s : ql_status) (h : s.status_type = ST_NOTIFICATION) :
    (handle_status s).1 = false ∧
    (s.notification_type = NT_COOLING_STARTED →
      handle_status s = (false, ["INFO: Cooling started.\n"])) ∧
    (s.notification_type = NT_COOLING_FINISHED →
      handle_status s = (false, ["INFO: Cooling finished.\n"])) ∧
    (s.notification_type ≠ NT_COOLING_STARTED → s.notification_type ≠ NT_COOLING_FINISHED →
      handle_status s = (false, [])) := by
  refine ⟨?_, ?_, ?_, ?_⟩
  · by_cases h3 : s.notification_type = NT_COOLING_STARTED
    · simp [handle_status, h, h3]
    · by_cases h4 : s.notification_type = NT_COOLING_FINISHED <;>
        simp [handle_status, h, h3, h4]
  · intro h3; simp [handle_status, h, h3]
  · intro h4; simp [handle_status, h, h4]
  · intro h3 h4; simp [handle_status, h, h3, h4]

/-- C22, witness: the statement at the record `status_cooling_started`. -/
theorem handle_status_notification_witness :
    status_cooling_started.status_type = ST_NOTIFICATION ∧
    status_cooling_started.notification_type = NT_COOLING_STARTED ∧
    (handle_status status_cooling_started).1 = false ∧
    handle_status status_cooling_started = (false, ["INFO: Cooling started.\n"]) :=
  ⟨by decide, by decide,
    (handle_status_notification status_cooling_started (by decide)).1,
    (handle_status_notification status_cooling_started (by decide)).2.1 (by decide)⟩

/-! ## Flush argument of the initialisation attempts -/

/-- C24: every attempt of `init` writes the bytes of `ql_init(flush)` and of
the status request, and the value of `flush` at attempt k is true if and only
if one of the earlier attempts j < k read a full 32-byte frame whose
`print_head_mark` was not 0x80; a short read never turns flushing on, so a run
of ten short reads writes ten times the 2-byte initialise command and the
status request, never the 200 zero bytes. -/
theorem init_flush_argument (status : ql_status) (device : List Nat)
    (pre rest : List BackChannelRead) (hpre : ∀ o ∈ pre, init_valid o = false) :
    (∀ (flush : Bool) (dev : List Nat),
      ql_status_request (ql_init flush dev) = dev ++ init_attempt flush) ∧
    init_attempt false = [0x1B, 0x40, 0x1B, 0x69, 0x53] ∧
    init_attempt true = List.replicate 200 0 ++ [0x1B, 0x40, 0x1B, 0x69, 0x53] ∧
    (∀ (bc : List BackChannelRead) (k : Nat),
      init_flush bc k = true ↔
        ∃ j, j < k ∧ ∃ o, bc[j]? = some o ∧ read_full o = true ∧
          (read_status o).print_head_mark ≠ 0x80) ∧
    (pre.length = 10 →
      (init status device (pre ++ rest)).2.2.1 =
        device ++ ((List.range 10).map
          (fun k => init_attempt (init_flush (pre ++ rest) k))).flatten) ∧
    (∀ t, pre.length < 10 → init_valid t = true →
      (init status device (pre ++ t :: rest)).2.2.1 =
        device ++ ((List.range (pre.length + 1)).map
          (fun k => init_attempt (init_flush (pre ++ t :: rest) k))).flatten) ∧
    (pre.length = 10 → (∀ o ∈ pre, read_full o = false) →
      (init status device (pre ++ rest)).2.2.1 =
        device ++ (List.replicate 10 [0x1B, 0x40, 0x1B, 0x69, 0x53]).flatten) := by
  obtain ⟨hfail, hstop⟩ := init_device_flags status device pre rest hpre
  refine ⟨init_attempt_device, init_attempt_bytes.1, init_attempt_bytes.2, init_flush_iff,
    hfail, hstop, ?_⟩
  intro hlen hshort
  rw [hfail hlen]
  have hmap : (List.range 10).map (fun k => init_attempt (init_flush (pre ++ rest) k)) =
      (List.range 10).map (fun _ => [0x1B, 0x40, 0x1B, 0x69, 0x53]) := by
    apply List.map_congr_left
    intro k hk
    have hk2 : k ≤ pre.length := by
      have := List.mem_range.mp hk
      omega
    rw [init_flush_append pre rest k hk2, init_flush_short pre k hshort]
    rfl
  rw [hmap]
  rfl

set_option maxRecDepth 1000000 in
/-- C24, witness: ten short reads write ten unflushed attempts; a short read,
then a frame with a wrong first byte, then a valid frame write two unflushed
attempts and a flushed one. -/
theorem init_flush_argument_witness :
    (List.replicate 10 (BackChannelRead.data [])).length = 10 ∧
    (init ql_status.zero [] (List.replicate 10 (BackChannelRead.data []) ++ [])).2.2.1 =
      [] ++ (List.replicate 10 [0x1B, 0x40, 0x1B, 0x69, 0x53]).flatten ∧
    init_valid (BackChannelRead.data status_valid.toBytes) = true ∧
    (init ql_status.zero []
      ([BackChannelRead.data [], BackChannelRead.data status_bad_mark_error.toBytes] ++
        BackChannelRead.data status_valid.toBytes :: [])).2.2.1 =
      [0x1B, 0x40, 0x1B, 0x69, 0x53] ++ [0x1B, 0x40, 0x1B, 0x69, 0x53] ++
        (List.replicate 200 0 ++ [0x1B, 0x40, 0x1B, 0x69, 0x53]) :=
  ⟨by decide,
    (init_flush_argument ql_status.zero [] (List.replicate 10 (BackChannelRead.data [])) []
      (by decide)).2.2.2.2.2.2 (by decide) (by decide),
    by decide,
    ((init_flush_argument ql_status.zero []
      [BackChannelRead.data [], BackChannelRead.data status_bad_mark_error.toBytes] []
      (by decide)).2.2.2.2.2.1 (BackChannelRead.data status_valid.toBytes) (by decide)
      (by decide)).trans rfl⟩

/-! ## The byte stream of a page -/

/-- C23: for every page height h < 65536 whose raster stream supplies all h
rows, the stream written after the page-start and extended-options commands
is a sequence of raster line frames (0x67, 0x00, 90 and 90 payload bytes)
followed by the raster-end frame and the page-end byte; the number of these
line frames, also when counted by reading the byte stream frame by frame, and
the line count declared in `raster_number` are both max(h, 150). -/
theorem handle_page_declared_line_count (header : cups_page_header2_t) (status : ql_status)
    (page_counter : Nat) (w : World) (rows : List (List Nat)) (rest : List RasterRead)
    (hh : header.cupsHeight < 65536)
    (hraster : w.raster = rows.map some ++ rest)
    (hrows : rows.length = header.cupsHeight)
    (hwidth : ∀ r ∈ rows, r.length = header.cupsBytesPerLine) :
    (handle_page header status page_counter w).fout =
      w.fout ++ page_head header page_counter ++ (page_frames header rows).flatten
        ++ ([0x67, 0xFF, 90] ++ List.replicate 90 0) ++ [0x0C] ∧
    (∀ f ∈ page_frames header rows,
      ∃ payload : List Nat, payload.length = 90 ∧ f = [0x67, 0x00, 90] ++ payload) ∧
    (page_frames header rows).length = max header.cupsHeight 150 ∧
    count_raster_frames
      ((handle_page header status page_counter w).fout.drop (w.fout.length + 17)) =
        max header.cupsHeight 150 ∧
    (handle_page_print_info header page_counter).line_count = max header.cupsHeight 150 := by
  have e := handle_page_fout_rows header status page_counter w rows rest hraster hwidth
    (by omega) (Or.inl hrows)
  have hshape := page_frames_shape header rows hwidth
  have hlen : (page_frames header rows).length = max header.cupsHeight 150 := by
    rw [page_frames_length, hrows, blank_lines_total header hh]
  refine ⟨e, hshape, hlen, ?_, handle_page_line_count_small header page_counter hh⟩
  have hdrop : (handle_page header status page_counter w).fout.drop (w.fout.length + 17) =
      (page_frames header rows).flatten ++ ([0x67, 0xFF, 90] ++ List.replicate 90 0) ++
        [0x0C] := by
    rw [e]
    simp only [List.append_assoc]
    rw [← List.append_assoc w.fout]
    rw [List.drop_append_of_le_length (by simp [page_head_length]),
      List.drop_of_length_le (by simp [page_head_length])]
    rfl
  rw [hdrop, count_raster_frames_page _ hshape, hlen]

/-- C23, witness: the statement at a page of three rows: 150 frames are
written and 150 lines are declared. -/
theorem handle_page_declared_line_count_witness :
    header_three_lines.cupsHeight < 65536 ∧
    world_three_lines.raster = rows_three_lines.map some ++ [] ∧
    rows_three_lines.length = header_three_lines.cupsHeight ∧
    count_raster_frames
      ((handle_page header_three_lines ql_status.zero 0 world_three_lines).fout.drop
        (world_three_lines.fout.length + 17)) = max header_three_lines.cupsHeight 150 ∧
    (handle_page_print_info header_three_lines 0).line_count =
      max header_three_lines.cupsHeight 150 ∧
    max header_three_lines.cupsHeight 150 = 150 :=
  ⟨by decide, by decide, by decide,
    (handle_page_declared_line_count header_three_lines ql_status.zero 0 world_three_lines
      rows_three_lines [] (by decide) (by decide) (by decide) (by decide)).2.2.2.1,
    (handle_page_declared_line_count header_three_lines ql_status.zero 0 world_three_lines
      rows_three_lines [] (by decide) (by decide) (by decide) (by decide)).2.2.2.2,
    by decide⟩

/-- C25: for every page, the bytes `handle_page` writes are, in this order:
the page-start command (0x1B 0x69 0x7A and the print-info record with
`valid_flag` 0x40, media members 0 and `successive_page` = 1 iff
`page_counter > 0`), the extended-options command, the leading blank frames,
the frames of the rows read, the trailing blank frames, the raster-end frame
of length 90 and the page-end byte 0x0C; the last byte written is 0x0C for
every page and every world, the last-page code 0x1A being what
`ql_page_end(true)` would write. -/
theorem handle_page_stream (header : cups_page_header2_t) (status : ql_status)
    (page_counter : Nat) (w : World) (rows : List (List Nat)) (rest : List RasterRead)
    (hraster : w.raster = rows.map some ++ rest)
    (hwidth : ∀ r ∈ rows, r.length = header.cupsBytesPerLine)
    (hle : rows.length ≤ header.cupsHeight)
    (hstop : rows.length = header.cupsHeight ∨ rest = [] ∨ ∃ rest2, rest = none :: rest2) :
    (handle_page header status page_counter w).fout =
      w.fout
        ++ ([0x1B, 0x69, 0x7A] ++
            [0x40, 0, 0, 0,
             (handle_page_print_info header page_counter).raster_number_0,
             (handle_page_print_info header page_counter).raster_number_1, 0, 0,
             if page_counter > 0 then 1 else 0, 0])
        ++ [0x1B, 0x69, 0x4B, if header.HWResolution.2 = 600 then 0x48 else 0x08]
        ++ (List.replicate (leading_blank_lines header) blank_frame).flatten
        ++ (rows.map (row_frame header.cupsBytesPerLine)).flatten
        ++ (List.replicate (trailing_blank_lines header) blank_frame).flatten
        ++ ([0x67, 0xFF, 90] ++ List.replicate 90 0)
        ++ [0x0C] ∧
    (∀ w2 : World, (handle_page header status page_counter w2).fout.getLast? = some 0x0C) ∧
    ql_page_end false [] = [0x0C] ∧
    ql_page_end true [] = [0x1A] := by
  refine ⟨?_, handle_page_last_byte header status page_counter, rfl, rfl⟩
  rw [handle_page_fout_rows header status page_counter w rows rest hraster hwidth hle hstop]
  simp only [page_head, page_frames, handle_page_print_info_bytes, List.flatten_append,
    List.append_assoc]

set_option maxRecDepth 1000000 in
/-- C25, witness: the complete byte stream of a second page of three rows of
two bytes. -/
theorem handle_page_stream_witness :
    world_three_lines.raster = rows_three_lines.map some ++ [] ∧
    rows_three_lines.length ≤ header_three_lines.cupsHeight ∧
    leading_blank_lines header_three_lines = 73 ∧
    trailing_blank_lines header_three_lines = 74 ∧
    (handle_page header_three_lines ql_status.zero 1 world_three_lines).fout =
      [] ++ ([0x1B, 0x69, 0x7A] ++ [0x40, 0, 0, 0, 150, 0, 0, 0, 1, 0])
        ++ [0x1B, 0x69, 0x4B, 0x08]
        ++ (List.replicate 73 blank_frame).flatten
        ++ ([0x67, 0x00, 90, 1, 2] ++ List.replicate 88 0
            ++ ([0x67, 0x00, 90, 3, 4] ++ List.replicate 88 0)
            ++ ([0x67, 0x00, 90, 5, 6] ++ List.replicate 88 0))
        ++ (List.replicate 74 blank_frame).flatten
        ++ ([0x67, 0xFF, 90] ++ List.replicate 90 0)
        ++ [0x0C] :=
  ⟨by decide, by decide, by decide, by decide,
    ((handle_page_stream header_three_lines ql_status.zero 1 world_three_lines
      rows_three_lines [] (by decide) (by decide) (by decide) (Or.inl (by decide))).1).trans
      rfl⟩

end QL570
